import Mathlib

/-!
Shallow embedding of the movie persistence and association-resolution layer of
a paginated CRUD API (FastAPI + SQLAlchemy source: src/crud/movies.py,
src/routes/movies.py, src/schemas/movies.py).

The relational store is a value of type `DB`: one list of rows per table plus
one autoincrement counter per table.  Machine dates are modelled as `Int`
(days), the Python floats for score/budget/revenue as `ℚ`.  Each async
function of the source becomes a pure state-passing function.
-/

namespace MovieApp

/-- Modelled from the spec: the closed movie status enumeration
(`MovieStatusEnum` lives in database/models.py, which is not part of the
given sources; the spec names Released / Planned / In Production). -/
inductive MovieStatusEnum where
  | released
  | planned
  | inProduction
deriving DecidableEq, Repr

/-- A row of the countries table: surrogate id, ISO code string, optional
display name (database model behind `CountryModel`). -/
structure CountryModel where
  id : Nat
  code : String
  name : Option String
deriving DecidableEq, Repr

/-- A row of the genres, actors or languages table: surrogate id plus the
natural-key name (database model behind `GenreModel` / `ActorModel` /
`LanguageModel`, which share this shape). -/
structure NamedModel where
  id : Nat
  name : String
deriving DecidableEq, Repr

/-- A row of the movies table (`MovieModel`): scalar columns plus the foreign
key to the country row and the association-table links to genres, actors and
languages, kept as lists of row ids. -/
structure MovieModel where
  id : Nat
  name : String
  date : Int
  score : ℚ
  overview : String
  status : MovieStatusEnum
  budget : ℚ
  revenue : ℚ
  country_id : Nat
  genre_ids : List Nat
  actor_ids : List Nat
  language_ids : List Nat
deriving DecidableEq, Repr

/-- The relational store: one table per entity and one autoincrement counter
per table (the next id the storage layer will hand out). -/
structure DB where
  movies : List MovieModel
  countries : List CountryModel
  genres : List NamedModel
  actors : List NamedModel
  languages : List NamedModel
  next_movie_id : Nat
  next_country_id : Nat
  next_genre_id : Nat
  next_actor_id : Nat
  next_language_id : Nat
deriving DecidableEq, Repr

/-- The empty store, with all counters at 1 (first generated id is 1). -/
def DB.empty : DB :=
  { movies := [], countries := [], genres := [], actors := [], languages := []
    next_movie_id := 1, next_country_id := 1, next_genre_id := 1
    next_actor_id := 1, next_language_id := 1 }

/-- Health of the movie table: pairwise distinct surrogate ids, all below
the autoincrement counter. -/
def MoviesInv (movies : List MovieModel) (ctr : Nat) : Prop :=
  (movies.map (·.id)).Nodup ∧ ∀ m ∈ movies, m.id < ctr

/-- Health of a genre / actor / language table: pairwise distinct surrogate
ids below the counter, pairwise distinct natural-key names. -/
def TableInv (rows : List NamedModel) (ctr : Nat) : Prop :=
  (rows.map (·.id)).Nodup ∧ (rows.map (·.name)).Nodup
    ∧ ∀ r ∈ rows, r.id < ctr

/-- Health of the country table: pairwise distinct surrogate ids below the
counter, pairwise distinct codes. -/
def CountryInv (rows : List CountryModel) (ctr : Nat) : Prop :=
  (rows.map (·.id)).Nodup ∧ (rows.map (·.code)).Nodup
    ∧ ∀ r ∈ rows, r.id < ctr

/-- Well-formedness of the store: every table healthy. -/
def WF (db : DB) : Prop :=
  MoviesInv db.movies db.next_movie_id
    ∧ CountryInv db.countries db.next_country_id
    ∧ TableInv db.genres db.next_genre_id
    ∧ TableInv db.actors db.next_actor_id
    ∧ TableInv db.languages db.next_language_id

instance (movies : List MovieModel) (ctr : Nat) :
    Decidable (MoviesInv movies ctr) := by
  unfold MoviesInv; infer_instance

instance (rows : List NamedModel) (ctr : Nat) : Decidable (TableInv rows ctr) := by
  unfold TableInv; infer_instance

instance (rows : List CountryModel) (ctr : Nat) :
    Decidable (CountryInv rows ctr) := by
  unfold CountryInv; infer_instance

instance (db : DB) : Decidable (WF db) := by
  unfold WF; infer_instance

namespace Schemas

/-- Modelled from the spec: a fragment of the ISO country table used by the
external validator behind `CountryAlpha2 | CountryAlpha3`
(pydantic_extra_types, not part of the given sources).  Each entry pairs the
2-letter and the 3-letter code of one country. -/
def iso_countries : List (String × String) :=
  [("US", "USA"), ("UA", "UKR"), ("GB", "GBR"), ("FR", "FRA"),
   ("DE", "DEU"), ("IT", "ITA"), ("PL", "POL"), ("JP", "JPN")]

/-- A string is accepted by `CountryAlpha2 | CountryAlpha3` iff it is the
2-letter or the 3-letter code of some country in the table. -/
def is_country_code (c : String) : Bool :=
  iso_countries.any (fun p => p.1 == c || p.2 == c)

/-- Two accepted code strings designate the same country iff one table entry
lists both. -/
def same_country (a b : String) : Bool :=
  iso_countries.any (fun p => (p.1 == a || p.2 == a) && (p.1 == b || p.2 == b))

/-- The validated payload of a create request (`MovieCreateSchema =
MovieBaseSchema`): all fields required. -/
structure MovieCreateSchema where
  name : String
  date : Int
  score : ℚ
  overview : String
  status : MovieStatusEnum
  budget : ℚ
  revenue : ℚ
  country : String
  genres : List String
  actors : List String
  languages : List String
deriving DecidableEq, Repr

/-- The field constraints of `MovieBaseSchema`: name length in [1,255],
score in [0,100], overview non-empty, budget and revenue nonnegative, the
country a valid ISO code, and the release date at most 365 days after today
(`validate_date`).  `today` is the current date, an input of the model. -/
def validate_create (today : Int) (p : MovieCreateSchema) : Bool :=
  decide (1 ≤ p.name.length) && decide (p.name.length ≤ 255)
    && decide (p.date ≤ today + 365)
    && decide ((0 : ℚ) ≤ p.score) && decide (p.score ≤ 100)
    && decide (1 ≤ p.overview.length)
    && decide ((0 : ℚ) ≤ p.budget) && decide ((0 : ℚ) ≤ p.revenue)
    && is_country_code p.country

/-- The payload of a partial update (`MovieUpdateSchema`): every field
optional; `none` stands for a field not present in the request
(the exclude_unset view of pydantic). -/
structure MovieUpdateSchema where
  name : Option String := none
  date : Option Int := none
  score : Option ℚ := none
  overview : Option String := none
  status : Option MovieStatusEnum := none
  budget : Option ℚ := none
  revenue : Option ℚ := none
deriving DecidableEq, Repr

/-- The field constraints of `MovieUpdateSchema`: score in [0,100], budget
and revenue nonnegative, date at most 365 days after today — each only when
present.  Name and overview carry no constraint in the source. -/
def validate_update (today : Int) (u : MovieUpdateSchema) : Bool :=
  u.score.all (fun s => decide ((0 : ℚ) ≤ s) && decide (s ≤ 100))
    && u.budget.all (fun b => decide ((0 : ℚ) ≤ b))
    && u.revenue.all (fun r => decide ((0 : ℚ) ≤ r))
    && u.date.all (fun d => decide (d ≤ today + 365))

end Schemas

namespace Crud

open Schemas

/-- `select(MovieModel).where(id == movie_id)` with eager association load:
the associations are already materialised in the row, so this is the point
lookup (crud.get_movie_by_id). -/
def get_movie_by_id (db : DB) (movie_id : Nat) : Option MovieModel :=
  db.movies.find? (fun m => m.id == movie_id)

/-- `select(MovieModel).where(name == name, date == release_date)`
(crud.get_movie_by_name_and_date). -/
def get_movie_by_name_and_date (db : DB) (name : String) (release_date : Int) :
    Option MovieModel :=
  db.movies.find? (fun m => m.name == name && m.date == release_date)

/-- The `order_by(MovieModel.id.desc())` ordering. -/
def movie_desc (a b : MovieModel) : Prop := b.id ≤ a.id

instance : DecidableRel movie_desc := fun a b => by
  unfold movie_desc; infer_instance

instance : IsTotal MovieModel movie_desc :=
  ⟨fun a b => (le_total b.id a.id).imp id id⟩

instance : IsTrans MovieModel movie_desc :=
  ⟨fun _ _ _ h h' => le_trans h' h⟩

/-- crud.get_movies_paginated: an independent full-table count, then the
movies ordered by descending id, windowed by
`offset((page - 1) * per_page).limit(per_page)`. -/
def get_movies_paginated (db : DB) (page per_page : Nat) :
    List MovieModel × Nat :=
  let total_items := db.movies.length
  let movies :=
    ((db.movies.insertionSort movie_desc).drop ((page - 1) * per_page)).take
      per_page
  (movies, total_items)

/-- crud._get_or_create_country: look the country up by code; if present
return it and leave the table unchanged, else insert a row with the next
generated id (the flush makes the id durable) and no display name.  The
country table and its counter are threaded explicitly. -/
def get_or_create_country (countries : List CountryModel) (ctr : Nat)
    (code : String) : CountryModel × List CountryModel × Nat :=
  match countries.find? (fun c => c.code == code) with
  | some c => (c, countries, ctr)
  | none =>
    let c : CountryModel := { id := ctr, code := code, name := none }
    (c, countries ++ [c], ctr + 1)

/-- crud._get_or_create_by_name, generic over the genre / actor / language
table: look the row up by name; if present return it unchanged, else insert
a row with the next generated id (flushed, hence durable). -/
def get_or_create_by_name (rows : List NamedModel) (ctr : Nat)
    (name : String) : NamedModel × List NamedModel × Nat :=
  match rows.find? (fun r => r.name == name) with
  | some r => (r, rows, ctr)
  | none =>
    let r : NamedModel := { id := ctr, name := name }
    (r, rows ++ [r], ctr + 1)

/-- The list comprehension `[await _get_or_create_by_name(db, model, n) for
n in names]`: sequential get-or-create over a list of names, returning the
resolved rows in payload order together with the updated table and counter. -/
def resolve_names (rows : List NamedModel) (ctr : Nat) :
    List String → List NamedModel × List NamedModel × Nat
  | [] => ([], rows, ctr)
  | n :: ns =>
    let r := get_or_create_by_name rows ctr n
    let rest := resolve_names r.2.1 r.2.2 ns
    (r.1 :: rest.1, rest.2.1, rest.2.2)

/-- The movie row constructed by crud.create_movie: the scalar columns of the payload, the id the autoincrement hands out, and the links to the rows the
resolvers returned. -/
def create_movie_row (db : DB) (p : MovieCreateSchema) : MovieModel :=
  { id := db.next_movie_id, name := p.name, date := p.date, score := p.score
    overview := p.overview, status := p.status, budget := p.budget
    revenue := p.revenue
    country_id := (get_or_create_country db.countries db.next_country_id
      p.country).1.id
    genre_ids := (resolve_names db.genres db.next_genre_id p.genres).1.map (·.id)
    actor_ids := (resolve_names db.actors db.next_actor_id p.actors).1.map (·.id)
    language_ids :=
      (resolve_names db.languages db.next_language_id p.languages).1.map (·.id) }

/-- The store after crud.create_movie commits: the resolver-updated reference
tables and the appended movie row. -/
def create_movie_db (db : DB) (p : MovieCreateSchema) : DB :=
  { movies := db.movies ++ [create_movie_row db p]
    countries :=
      (get_or_create_country db.countries db.next_country_id p.country).2.1
    genres := (resolve_names db.genres db.next_genre_id p.genres).2.1
    actors := (resolve_names db.actors db.next_actor_id p.actors).2.1
    languages := (resolve_names db.languages db.next_language_id p.languages).2.1
    next_movie_id := db.next_movie_id + 1
    next_country_id :=
      (get_or_create_country db.countries db.next_country_id p.country).2.2
    next_genre_id := (resolve_names db.genres db.next_genre_id p.genres).2.2
    next_actor_id := (resolve_names db.actors db.next_actor_id p.actors).2.2
    next_language_id :=
      (resolve_names db.languages db.next_language_id p.languages).2.2 }

/-- crud.create_movie: resolve the country and each genre / actor / language
name through get-or-create, construct the movie row linking the resolved
entities, persist it, and re-fetch it by id with eager association load
(returned as the `Option`; the state after commit is the second component). -/
def create_movie (db : DB) (p : MovieCreateSchema) :
    Option MovieModel × DB :=
  (get_movie_by_id (create_movie_db db p) (create_movie_row db p).id,
    create_movie_db db p)

/-- The setattr loop of crud.update_movie: every field present in the
exclude_unset dump overwrites the column of the movie, every absent field is left
alone; associations and id are not part of the update schema. -/
def apply_update (m : MovieModel) (u : MovieUpdateSchema) : MovieModel :=
  { m with
    name := u.name.getD m.name
    date := u.date.getD m.date
    score := u.score.getD m.score
    overview := u.overview.getD m.overview
    status := u.status.getD m.status
    budget := u.budget.getD m.budget
    revenue := u.revenue.getD m.revenue }

/-- crud.update_movie: mutate the fetched movie row in place (identified by
its id) and commit. -/
def update_movie (db : DB) (movie : MovieModel) (u : MovieUpdateSchema) : DB :=
  { db with
    movies := db.movies.map (fun r => if r.id == movie.id then apply_update r u else r) }

/-- crud.delete_movie: remove the movie row (and with it its association
links) and commit. -/
def delete_movie (db : DB) (movie : MovieModel) : DB :=
  { db with movies := db.movies.filter (fun r => !(r.id == movie.id)) }

end Crud

namespace Routes

open Schemas

/-- The transport-level outcomes the routes can produce: a 422 validation
rejection (FastAPI / pydantic, before the handler body), 404, 409, 400, and
the impossible internal failure of a vanished re-fetch. -/
inductive ApiError where
  | validation
  | notFound (detail : String)
  | conflict (detail : String)
  | badRequest (detail : String)
  | internal
deriving DecidableEq, Repr

/-- The body of `MovieListResponseSchema`. -/
structure MovieListResponseSchema where
  movies : List MovieModel
  prev_page : Option String
  next_page : Option String
  total_pages : Nat
  total_items : Nat
deriving DecidableEq, Repr

/-- The pagination arithmetic of the list route (routes/movies.py lines
43-55): `total_pages = (total_items + per_page - 1) // per_page`, a prev
link exactly when `page > 1`, a next link exactly when `page < total_pages`. -/
def pagination_meta (page per_page total_items : Nat) :
    Nat × Option String × Option String :=
  let total_pages := (total_items + per_page - 1) / per_page
  let prev_page :=
    if page > 1 then some s!"/theater/movies/?page={page - 1}&per_page={per_page}"
    else none
  let next_page :=
    if page < total_pages then
      some s!"/theater/movies/?page={page + 1}&per_page={per_page}"
    else none
  (total_pages, prev_page, next_page)

/-- routes.list_movies: query validation (`page ≥ 1`, `1 ≤ per_page ≤ 20`),
the paginated fetch, the 404 on an empty window, then pagination metadata. -/
def list_movies (db : DB) (page per_page : Nat) :
    Except ApiError MovieListResponseSchema :=
  if 1 ≤ page ∧ 1 ≤ per_page ∧ per_page ≤ 20 then
    let fetched := Crud.get_movies_paginated db page per_page
    if fetched.1.isEmpty then .error (.notFound "No movies found.")
    else
      let meta := pagination_meta page per_page fetched.2
      .ok { movies := fetched.1, prev_page := meta.2.1, next_page := meta.2.2
            total_pages := meta.1, total_items := fetched.2 }
  else .error .validation

/-- routes.create_movie: pydantic validation of the payload, the
(name, date) existence probe with its 409, then the crud create.  The
409 detail of the source quotes the offending name and date (quotation marks
omitted here).  Returns the re-fetched movie and the post-state. -/
def create_movie (today : Int) (db : DB) (p : MovieCreateSchema) :
    Except ApiError MovieModel × DB :=
  if validate_create today p then
    match Crud.get_movie_by_name_and_date db p.name p.date with
    | some _ =>
      let nm := p.name
      let dt := p.date
      (.error (.conflict
        s!"A movie with the name {nm} and release date {dt} already exists."), db)
    | none =>
      let res := Crud.create_movie db p
      match res.1 with
      | some movie => (.ok movie, res.2)
      | none => (.error .internal, res.2)
  else (.error .validation, db)

/-- The eager hydration the detail response performs: resolve the country
row and every linked genre / actor / language row of the movie. -/
structure MovieDetailSchema where
  id : Nat
  name : String
  date : Int
  score : ℚ
  overview : String
  status : MovieStatusEnum
  budget : ℚ
  revenue : ℚ
  country : CountryModel
  genres : List NamedModel
  actors : List NamedModel
  languages : List NamedModel
deriving DecidableEq, Repr

/-- Serialisation of a movie row into `MovieDetailSchema`: each foreign key
is replaced by the referenced row (`none` would mean a dangling link, which
the store never produces). -/
def hydrate (db : DB) (m : MovieModel) : Option MovieDetailSchema := do
  let country ← db.countries.find? (fun c => c.id == m.country_id)
  let genres ← m.genre_ids.mapM (fun i => db.genres.find? (fun g => g.id == i))
  let actors ← m.actor_ids.mapM (fun i => db.actors.find? (fun a => a.id == i))
  let languages ←
    m.language_ids.mapM (fun i => db.languages.find? (fun l => l.id == i))
  pure { id := m.id, name := m.name, date := m.date, score := m.score
         overview := m.overview, status := m.status, budget := m.budget
         revenue := m.revenue, country := country, genres := genres
         actors := actors, languages := languages }

/-- routes.get_movie: the eager-loaded point lookup with its 404, serialised
through `MovieDetailSchema`. -/
def get_movie (db : DB) (movie_id : Nat) : Except ApiError MovieDetailSchema :=
  match Crud.get_movie_by_id db movie_id with
  | none => .error (.notFound "Movie with the given ID was not found.")
  | some m =>
    match hydrate db m with
    | some d => .ok d
    | none => .error .internal

/-- routes.update_movie: pydantic validation of the partial payload, the
point lookup with its 404, then the crud update; on success the route
answers with a message body. -/
def update_movie (today : Int) (db : DB) (movie_id : Nat)
    (u : MovieUpdateSchema) : Except ApiError String × DB :=
  if validate_update today u then
    match Crud.get_movie_by_id db movie_id with
    | none => (.error (.notFound "Movie with the given ID was not found."), db)
    | some m => (.ok "Movie updated successfully.", Crud.update_movie db m u)
  else (.error .validation, db)

end Routes

/-! Spec-side invariant definitions and concrete instances used by the
witnesses below. -/

section Instances

open Schemas

/-- The movie field invariants of the data model: non-empty name of at most
255 characters, non-empty overview, score in [0,100], nonnegative budget and
revenue (the status enumeration is closed by construction here). -/
def MovieInv (m : MovieModel) : Prop :=
  1 ≤ m.name.length ∧ m.name.length ≤ 255 ∧ 1 ≤ m.overview.length
    ∧ 0 ≤ m.score ∧ m.score ≤ 100 ∧ 0 ≤ m.budget ∧ 0 ≤ m.revenue

instance (m : MovieModel) : Decidable (MovieInv m) := by
  unfold MovieInv; infer_instance

/-- The numeric movie field invariants: score in [0,100], nonnegative budget
and revenue. -/
def MovieNumInv (m : MovieModel) : Prop :=
  0 ≤ m.score ∧ m.score ≤ 100 ∧ 0 ≤ m.budget ∧ 0 ≤ m.revenue

instance (m : MovieModel) : Decidable (MovieNumInv m) := by
  unfold MovieNumInv; infer_instance

/-- A concrete payload exercising C1. -/
def c1_payload : MovieCreateSchema :=
  { name := "Inception", date := 0, score := 87, overview := "A heist in dreams."
    status := .released, budget := 160000000, revenue := 825000000
    country := "US", genres := ["Action", "Sci-Fi"], actors := ["Leo"]
    languages := ["English"] }

/-- First concrete payload exercising C2 (shares genre Drama with the
second). -/
def c2_payload1 : MovieCreateSchema :=
  { name := "Alpha", date := 10, score := 70, overview := "First film."
    status := .released, budget := 10, revenue := 20, country := "FR"
    genres := ["Drama", "Crime"], actors := ["Ann"], languages := ["French"] }

/-- Second concrete payload exercising C2 (shares genre Drama with the
first). -/
def c2_payload2 : MovieCreateSchema :=
  { name := "Beta", date := 11, score := 60, overview := "Second film."
    status := .planned, budget := 0, revenue := 0, country := "FR"
    genres := ["Drama"], actors := ["Bob"], languages := ["French"] }

/-- A concrete seed payload whose create populates `seed_db`. -/
def seed_payload : MovieCreateSchema :=
  { name := "Alpha", date := 10, score := 70, overview := "First film."
    status := .released, budget := 10, revenue := 20, country := "FR"
    genres := ["Drama"], actors := ["Ann"], languages := ["French"] }

/-- A concrete well-formed store holding exactly one movie, (Alpha, 10). -/
def seed_db : DB := (Routes.create_movie 0 DB.empty seed_payload).2

/-- The movie row stored in `seed_db`. -/
def seed_row : MovieModel :=
  { id := 1, name := "Alpha", date := 10, score := 70
    overview := "First film.", status := .released, budget := 10
    revenue := 20, country_id := 1, genre_ids := [1], actor_ids := [1]
    language_ids := [1] }

/-- A concrete payload reusing the (Alpha, 10) pair of `seed_db`. -/
def c3_payload : MovieCreateSchema :=
  { name := "Alpha", date := 10, score := 50, overview := "A remake."
    status := .planned, budget := 5, revenue := 0, country := "DE"
    genres := ["Horror"], actors := ["Cyd"], languages := ["German"] }

/-- The concrete partial payload of the example in the spec: only score
set. -/
def c4_update : MovieUpdateSchema := { score := some 42 }

/-- A concrete payload with the out-of-range score -1. -/
def c7_payload : MovieCreateSchema :=
  { name := "Bad", date := 0, score := -1, overview := "Out of range."
    status := .released, budget := 0, revenue := 0, country := "US"
    genres := [], actors := [], languages := [] }

/-- A concrete payload naming its country by the 2-letter code US. -/
def c9_payload_us : MovieCreateSchema :=
  { name := "Gamma", date := 1, score := 50, overview := "Shot stateside."
    status := .released, budget := 1, revenue := 1, country := "US"
    genres := ["Drama"], actors := ["Eve"], languages := ["English"] }

/-- A concrete payload naming the same country by its 3-letter code USA. -/
def c9_payload_usa : MovieCreateSchema :=
  { name := "Delta", date := 2, score := 51, overview := "Also stateside."
    status := .planned, budget := 2, revenue := 2, country := "USA"
    genres := ["Drama"], actors := ["Eve"], languages := ["English"] }

/-- A second payload sharing the exact country code FR with
`seed_payload`. -/
def c9_payload_fr : MovieCreateSchema :=
  { name := "Epsilon", date := 3, score := 40, overview := "Also French."
    status := .inProduction, budget := 3, revenue := 3, country := "FR"
    genres := ["Comedy"], actors := ["Fay"], languages := ["French"] }

end Instances

/-! Auxiliary lemmas about keyed lookup and the get-or-create resolvers. -/

section FindLemmas

variable {α β : Type} [BEq β] [LawfulBEq β]

/-- In a list whose keys are pairwise distinct, keyed `find?` returns exactly
the member carrying the key. -/
theorem find?_key_of_mem (f : α → β) {l : List α} {a : α}
    (hn : (l.map f).Nodup) (ha : a ∈ l) :
    l.find? (fun x => f x == f a) = some a := by
  induction l with
  | nil => cases ha
  | cons b t ih =>
    rw [List.map_cons, List.nodup_cons] at hn
    rcases List.mem_cons.mp ha with rfl | ha'
    · exact List.find?_cons_of_pos _ (by simp)
    · have hb : (f b == f a) = false := by
        rw [beq_eq_false_iff_ne]
        intro h
        exact hn.1 (h ▸ List.mem_map_of_mem f ha')
      rw [List.find?_cons_of_neg _ (by simp [hb])]
      exact ih hn.2 ha'

/-- Keyed `find?` misses iff no member carries the key. -/
theorem find?_key_of_not_mem (f : α → β) (k : β) {l : List α}
    (h : ∀ a ∈ l, f a ≠ k) :
    l.find? (fun x => f x == k) = none :=
  List.find?_eq_none.mpr (fun x hx => by simp [h x hx])

end FindLemmas

section ResolverLemmas

open Crud

/-- Looking every linked id back up in a table with distinct ids recovers
exactly the linked rows. -/
theorem mapM_find?_ids {table : List NamedModel}
    (hn : (table.map (·.id)).Nodup) :
    ∀ {gs : List NamedModel}, (∀ g ∈ gs, g ∈ table) →
      (gs.map (·.id)).mapM (fun i => table.find? (fun x => x.id == i)) =
        some gs := by
  intro gs
  induction gs with
  | nil => intro _; rfl
  | cons g t ih =>
    intro h
    have hg : table.find? (fun x => x.id == g.id) = some g :=
      find?_key_of_mem (·.id) hn (h g (List.mem_cons_self g t))
    simp only [List.map_cons, List.mapM_cons, hg, Option.bind_eq_bind,
      Option.some_bind, ih (fun x hx => h x (List.mem_cons_of_mem _ hx))]
    rfl

/-- Case analysis of `_get_or_create_by_name`: either the key was present
and the table and counter are untouched, or the key was absent and exactly
the one fresh row was appended. -/
theorem get_or_create_by_name_cases (rows : List NamedModel) (ctr : Nat)
    (n : String) :
    ((get_or_create_by_name rows ctr n).1 ∈ rows
        ∧ (get_or_create_by_name rows ctr n).2.1 = rows
        ∧ (get_or_create_by_name rows ctr n).2.2 = ctr)
      ∨ ((∀ r ∈ rows, r.name ≠ n)
        ∧ (get_or_create_by_name rows ctr n).1 = { id := ctr, name := n }
        ∧ (get_or_create_by_name rows ctr n).2.1 =
            rows ++ [{ id := ctr, name := n }]
        ∧ (get_or_create_by_name rows ctr n).2.2 = ctr + 1) := by
  unfold get_or_create_by_name
  cases h : rows.find? (fun r => r.name == n) with
  | some r => exact Or.inl ⟨List.mem_of_find?_eq_some h, rfl, rfl⟩
  | none =>
    refine Or.inr ⟨?_, rfl, rfl, rfl⟩
    intro x hx hxn
    have := List.find?_eq_none.mp h x hx
    simp [hxn] at this

/-- The resolved entity always carries the requested natural key. -/
theorem get_or_create_by_name_name (rows : List NamedModel) (ctr : Nat)
    (n : String) : (get_or_create_by_name rows ctr n).1.name = n := by
  unfold get_or_create_by_name
  cases h : rows.find? (fun r => r.name == n) with
  | some r =>
    show r.name = n
    have hb := List.find?_some h
    simpa using hb
  | none => rfl

/-- The resolved entity is a row of the resulting table. -/
theorem get_or_create_by_name_mem (rows : List NamedModel) (ctr : Nat)
    (n : String) :
    (get_or_create_by_name rows ctr n).1 ∈
      (get_or_create_by_name rows ctr n).2.1 := by
  rcases get_or_create_by_name_cases rows ctr n with ⟨h1, h2, _⟩ | ⟨_, h1, h2, _⟩
  · rw [h2]; exact h1
  · rw [h1, h2]; exact List.mem_append_right _ (List.mem_cons_self _ _)

/-- Get-or-create never removes a row. -/
theorem get_or_create_by_name_sub (rows : List NamedModel) (ctr : Nat)
    (n : String) {r : NamedModel} (hr : r ∈ rows) :
    r ∈ (get_or_create_by_name rows ctr n).2.1 := by
  rcases get_or_create_by_name_cases rows ctr n with ⟨_, h2, _⟩ | ⟨_, _, h2, _⟩
  · rw [h2]; exact hr
  · rw [h2]; exact List.mem_append_left _ hr

/-- Get-or-create preserves table health and never lowers the counter. -/
theorem get_or_create_by_name_inv {rows : List NamedModel} {ctr : Nat}
    (n : String) (h : TableInv rows ctr) :
    TableInv (get_or_create_by_name rows ctr n).2.1
        (get_or_create_by_name rows ctr n).2.2
      ∧ ctr ≤ (get_or_create_by_name rows ctr n).2.2 := by
  obtain ⟨hid, hname, hlt⟩ := h
  rcases get_or_create_by_name_cases rows ctr n with ⟨_, h2, h3⟩ |
    ⟨habs, _, h2, h3⟩
  · rw [h2, h3]; exact ⟨⟨hid, hname, hlt⟩, le_refl ctr⟩
  · rw [h2, h3]
    refine ⟨⟨?_, ?_, ?_⟩, Nat.le_succ ctr⟩
    · simp only [List.map_append, List.map_cons, List.map_nil,
        List.nodup_append]
      refine ⟨hid, List.nodup_singleton _, ?_⟩
      intro i hi
      simp only [List.mem_singleton]
      rcases List.mem_map.mp hi with ⟨r, hr, rfl⟩
      exact fun hc => absurd (hc ▸ hlt r hr) (lt_irrefl ctr)
    · simp only [List.map_append, List.map_cons, List.map_nil,
        List.nodup_append]
      refine ⟨hname, List.nodup_singleton _, ?_⟩
      intro s hs
      simp only [List.mem_singleton]
      rcases List.mem_map.mp hs with ⟨r, hr, rfl⟩
      exact fun hc => absurd hc (habs r hr)
    · intro r hr
      rcases List.mem_append.mp hr with hr' | hr'
      · exact Nat.lt_succ_of_lt (hlt r hr')
      · rcases List.mem_singleton.mp hr' with rfl
        exact Nat.lt_succ_self ctr

/-- Resolving a list of names yields entities carrying exactly those names,
in payload order. -/
theorem resolve_names_map_name (rows : List NamedModel) (ctr : Nat) :
    ∀ ns : List String,
      (resolve_names rows ctr ns).1.map (·.name) = ns := by
  intro ns
  induction ns generalizing rows ctr with
  | nil => rfl
  | cons n ns ih =>
    simp only [resolve_names, List.map_cons, List.cons.injEq]
    exact ⟨get_or_create_by_name_name rows ctr n, ih _ _⟩

/-- Resolution never removes a row from the table. -/
theorem resolve_names_sub (rows : List NamedModel) (ctr : Nat)
    (ns : List String) {r : NamedModel} (hr : r ∈ rows) :
    r ∈ (resolve_names rows ctr ns).2.1 := by
  induction ns generalizing rows ctr with
  | nil => exact hr
  | cons n ns ih =>
    simp only [resolve_names]
    exact ih _ _ (get_or_create_by_name_sub rows ctr n hr)

/-- Every resolved entity is a row of the resulting table. -/
theorem resolve_names_mem (rows : List NamedModel) (ctr : Nat)
    (ns : List String) :
    ∀ r ∈ (resolve_names rows ctr ns).1, r ∈ (resolve_names rows ctr ns).2.1 := by
  induction ns generalizing rows ctr with
  | nil => intro r hr; cases hr
  | cons n ns ih =>
    intro r hr
    simp only [resolve_names, List.mem_cons] at hr ⊢
    rcases hr with rfl | hr
    · exact resolve_names_sub _ _ ns (get_or_create_by_name_mem rows ctr n)
    · exact ih _ _ r hr

/-- Resolution preserves table health and never lowers the counter. -/
theorem resolve_names_inv {rows : List NamedModel} {ctr : Nat}
    (ns : List String) (h : TableInv rows ctr) :
    TableInv (resolve_names rows ctr ns).2.1 (resolve_names rows ctr ns).2.2
      ∧ ctr ≤ (resolve_names rows ctr ns).2.2 := by
  induction ns generalizing rows ctr with
  | nil => exact ⟨h, le_refl ctr⟩
  | cons n ns ih =>
    simp only [resolve_names]
    obtain ⟨h1, h2⟩ := get_or_create_by_name_inv n h
    obtain ⟨h3, h4⟩ := ih h1
    exact ⟨h3, le_trans h2 h4⟩

/-- Case analysis of `_get_or_create_country`, mirroring
`get_or_create_by_name_cases`. -/
theorem get_or_create_country_cases (rows : List CountryModel) (ctr : Nat)
    (code : String) :
    ((get_or_create_country rows ctr code).1 ∈ rows
        ∧ (get_or_create_country rows ctr code).2.1 = rows
        ∧ (get_or_create_country rows ctr code).2.2 = ctr)
      ∨ ((∀ r ∈ rows, r.code ≠ code)
        ∧ (get_or_create_country rows ctr code).1 =
            { id := ctr, code := code, name := none }
        ∧ (get_or_create_country rows ctr code).2.1 =
            rows ++ [{ id := ctr, code := code, name := none }]
        ∧ (get_or_create_country rows ctr code).2.2 = ctr + 1) := by
  unfold get_or_create_country
  cases h : rows.find? (fun c => c.code == code) with
  | some r => exact Or.inl ⟨List.mem_of_find?_eq_some h, rfl, rfl⟩
  | none =>
    refine Or.inr ⟨?_, rfl, rfl, rfl⟩
    intro x hx hxn
    have := List.find?_eq_none.mp h x hx
    simp [hxn] at this

/-- The resolved country always carries the requested code. -/
theorem get_or_create_country_code (rows : List CountryModel) (ctr : Nat)
    (code : String) :
    (get_or_create_country rows ctr code).1.code = code := by
  unfold get_or_create_country
  cases h : rows.find? (fun c => c.code == code) with
  | some r =>
    show r.code = code
    have hb := List.find?_some h
    simpa using hb
  | none => rfl

/-- The resolved country is a row of the resulting table. -/
theorem get_or_create_country_mem (rows : List CountryModel) (ctr : Nat)
    (code : String) :
    (get_or_create_country rows ctr code).1 ∈
      (get_or_create_country rows ctr code).2.1 := by
  rcases get_or_create_country_cases rows ctr code with ⟨h1, h2, _⟩ |
    ⟨_, h1, h2, _⟩
  · rw [h2]; exact h1
  · rw [h1, h2]; exact List.mem_append_right _ (List.mem_cons_self _ _)

/-- Country get-or-create never removes a row. -/
theorem get_or_create_country_sub (rows : List CountryModel) (ctr : Nat)
    (code : String) {r : CountryModel} (hr : r ∈ rows) :
    r ∈ (get_or_create_country rows ctr code).2.1 := by
  rcases get_or_create_country_cases rows ctr code with ⟨_, h2, _⟩ |
    ⟨_, _, h2, _⟩
  · rw [h2]; exact hr
  · rw [h2]; exact List.mem_append_left _ hr

/-- Country get-or-create preserves table health and never lowers the
counter. -/
theorem get_or_create_country_inv {rows : List CountryModel} {ctr : Nat}
    (code : String) (h : CountryInv rows ctr) :
    CountryInv (get_or_create_country rows ctr code).2.1
        (get_or_create_country rows ctr code).2.2
      ∧ ctr ≤ (get_or_create_country rows ctr code).2.2 := by
  obtain ⟨hid, hcode, hlt⟩ := h
  rcases get_or_create_country_cases rows ctr code with ⟨_, h2, h3⟩ |
    ⟨habs, _, h2, h3⟩
  · rw [h2, h3]; exact ⟨⟨hid, hcode, hlt⟩, le_refl ctr⟩
  · rw [h2, h3]
    refine ⟨⟨?_, ?_, ?_⟩, Nat.le_succ ctr⟩
    · simp only [List.map_append, List.map_cons, List.map_nil,
        List.nodup_append]
      refine ⟨hid, List.nodup_singleton _, ?_⟩
      intro i hi
      simp only [List.mem_singleton]
      rcases List.mem_map.mp hi with ⟨r, hr, rfl⟩
      exact fun hc => absurd (hc ▸ hlt r hr) (lt_irrefl ctr)
    · simp only [List.map_append, List.map_cons, List.map_nil,
        List.nodup_append]
      refine ⟨hcode, List.nodup_singleton _, ?_⟩
      intro s hs
      simp only [List.mem_singleton]
      rcases List.mem_map.mp hs with ⟨r, hr, rfl⟩
      exact fun hc => absurd hc (habs r hr)
    · intro r hr
      rcases List.mem_append.mp hr with hr' | hr'
      · exact Nat.lt_succ_of_lt (hlt r hr')
      · rcases List.mem_singleton.mp hr' with rfl
        exact Nat.lt_succ_self ctr

/-- When a row with the requested name is present, get-or-create returns it
and leaves table and counter untouched. -/
theorem get_or_create_by_name_found {rows : List NamedModel} {ctr : Nat}
    {k : String} {r : NamedModel} (hr : r ∈ rows) (hname : r.name = k)
    (hn : (rows.map (·.name)).Nodup) :
    get_or_create_by_name rows ctr k = (r, rows, ctr) := by
  unfold get_or_create_by_name
  have hfind : rows.find? (fun x => x.name == k) = some r := by
    have h0 := find?_key_of_mem (·.name) hn hr
    dsimp only at h0
    rwa [hname] at h0
  rw [hfind]

/-- When no row carries the requested name, get-or-create appends exactly one
fresh row bearing the next generated id. -/
theorem get_or_create_by_name_absent {rows : List NamedModel} {ctr : Nat}
    {k : String} (h : ∀ r ∈ rows, r.name ≠ k) :
    get_or_create_by_name rows ctr k =
      ({ id := ctr, name := k }, rows ++ [{ id := ctr, name := k }],
        ctr + 1) := by
  unfold get_or_create_by_name
  have hfind : rows.find? (fun r => r.name == k) = none :=
    List.find?_eq_none.mpr (fun x hx => by simp [h x hx])
  rw [hfind]

/-- Country analogue of `get_or_create_by_name_found`. -/
theorem get_or_create_country_found {rows : List CountryModel} {ctr : Nat}
    {k : String} {r : CountryModel} (hr : r ∈ rows) (hcode : r.code = k)
    (hn : (rows.map (·.code)).Nodup) :
    get_or_create_country rows ctr k = (r, rows, ctr) := by
  unfold get_or_create_country
  have hfind : rows.find? (fun x => x.code == k) = some r := by
    have h0 := find?_key_of_mem (·.code) hn hr
    dsimp only at h0
    rwa [hcode] at h0
  rw [hfind]

/-- Country analogue of `get_or_create_by_name_absent`. -/
theorem get_or_create_country_absent {rows : List CountryModel} {ctr : Nat}
    {k : String} (h : ∀ r ∈ rows, r.code ≠ k) :
    get_or_create_country rows ctr k =
      ({ id := ctr, code := k, name := none },
        rows ++ [{ id := ctr, code := k, name := none }], ctr + 1) := by
  unfold get_or_create_country
  have hfind : rows.find? (fun c => c.code == k) = none :=
    List.find?_eq_none.mpr (fun x hx => by simp [h x hx])
  rw [hfind]

/-- In a table with pairwise distinct keys, a key held by some member occurs
exactly once. -/
theorem count_key_eq_one {α β : Type} [DecidableEq β] (f : α → β)
    {l : List α} {a : α} (hn : (l.map f).Nodup) (ha : a ∈ l) :
    (l.map f).count (f a) = 1 :=
  List.count_eq_one_of_mem hn (List.mem_map_of_mem f ha)

/-- Two sequential name resolutions sharing a name are idempotent: exactly
one row with that name exists in the final table, and both resolved lists
link to it. -/
theorem resolve_pair_idempotent {rows : List NamedModel} {ctr : Nat}
    (ns1 ns2 : List String) (k : String) (hk1 : k ∈ ns1) (hk2 : k ∈ ns2)
    (hinv : TableInv rows ctr) :
    ∃ g : NamedModel,
      g ∈ (resolve_names (resolve_names rows ctr ns1).2.1
        (resolve_names rows ctr ns1).2.2 ns2).2.1
      ∧ g.name = k
      ∧ (((resolve_names (resolve_names rows ctr ns1).2.1
          (resolve_names rows ctr ns1).2.2 ns2).2.1).map (·.name)).count k = 1
      ∧ g.id ∈ (resolve_names rows ctr ns1).1.map (·.id)
      ∧ g.id ∈ (resolve_names (resolve_names rows ctr ns1).2.1
          (resolve_names rows ctr ns1).2.2 ns2).1.map (·.id) := by
  have hinv1 := (resolve_names_inv ns1 hinv).1
  have hinv2 := (resolve_names_inv ns2 hinv1).1
  have hk1' : k ∈ (resolve_names rows ctr ns1).1.map (·.name) := by
    rw [resolve_names_map_name]; exact hk1
  obtain ⟨g1, hg1mem, hg1name⟩ := List.mem_map.mp hk1'
  have hk2' : k ∈ (resolve_names (resolve_names rows ctr ns1).2.1
      (resolve_names rows ctr ns1).2.2 ns2).1.map (·.name) := by
    rw [resolve_names_map_name]; exact hk2
  obtain ⟨g2, hg2mem, hg2name⟩ := List.mem_map.mp hk2'
  have hg1t1 : g1 ∈ (resolve_names rows ctr ns1).2.1 :=
    resolve_names_mem rows ctr ns1 g1 hg1mem
  have hg1t2 : g1 ∈ (resolve_names (resolve_names rows ctr ns1).2.1
      (resolve_names rows ctr ns1).2.2 ns2).2.1 :=
    resolve_names_sub _ _ ns2 hg1t1
  have hg2t2 : g2 ∈ (resolve_names (resolve_names rows ctr ns1).2.1
      (resolve_names rows ctr ns1).2.2 ns2).2.1 :=
    resolve_names_mem _ _ ns2 g2 hg2mem
  have hg12 : g1 = g2 :=
    List.inj_on_of_nodup_map hinv2.2.1 hg1t2 hg2t2
      (hg1name.trans hg2name.symm)
  refine ⟨g1, hg1t2, hg1name, ?_, List.mem_map_of_mem _ hg1mem, ?_⟩
  · have h0 := count_key_eq_one (·.name) hinv2.2.1 hg1t2
    dsimp only at h0
    rwa [hg1name] at h0
  · rw [hg12]
    exact List.mem_map_of_mem _ hg2mem

/-- Two sequential country resolutions sharing a code are idempotent:
exactly one row with that code exists in the final table, and both resolved
countries are that row. -/
theorem country_pair_idempotent {rows : List CountryModel} {ctr : Nat}
    (c1 c2 k : String) (h1 : c1 = k) (h2 : c2 = k)
    (hinv : CountryInv rows ctr) :
    ∃ c : CountryModel,
      c ∈ (get_or_create_country (get_or_create_country rows ctr c1).2.1
        (get_or_create_country rows ctr c1).2.2 c2).2.1
      ∧ c.code = k
      ∧ (((get_or_create_country (get_or_create_country rows ctr c1).2.1
          (get_or_create_country rows ctr c1).2.2 c2).2.1).map
            (·.code)).count k = 1
      ∧ (get_or_create_country rows ctr c1).1.id = c.id
      ∧ (get_or_create_country (get_or_create_country rows ctr c1).2.1
          (get_or_create_country rows ctr c1).2.2 c2).1.id = c.id := by
  have hinv1 := (get_or_create_country_inv c1 hinv).1
  have hinv2 := (get_or_create_country_inv c2 hinv1).1
  have hc1t1 : (get_or_create_country rows ctr c1).1 ∈
      (get_or_create_country rows ctr c1).2.1 :=
    get_or_create_country_mem rows ctr c1
  have hc1t2 : (get_or_create_country rows ctr c1).1 ∈
      (get_or_create_country (get_or_create_country rows ctr c1).2.1
        (get_or_create_country rows ctr c1).2.2 c2).2.1 :=
    get_or_create_country_sub _ _ c2 hc1t1
  have hc2t2 : (get_or_create_country (get_or_create_country rows ctr c1).2.1
      (get_or_create_country rows ctr c1).2.2 c2).1 ∈
      (get_or_create_country (get_or_create_country rows ctr c1).2.1
        (get_or_create_country rows ctr c1).2.2 c2).2.1 :=
    get_or_create_country_mem _ _ c2
  have hcode1 : (get_or_create_country rows ctr c1).1.code = k :=
    (get_or_create_country_code rows ctr c1).trans h1
  have hcode2 : (get_or_create_country (get_or_create_country rows ctr c1).2.1
      (get_or_create_country rows ctr c1).2.2 c2).1.code = k :=
    (get_or_create_country_code _ _ c2).trans h2
  have hc12 := List.inj_on_of_nodup_map hinv2.2.1 hc1t2 hc2t2
    (hcode1.trans hcode2.symm)
  refine ⟨(get_or_create_country rows ctr c1).1, hc1t2, hcode1, ?_, rfl, ?_⟩
  · have h0 := count_key_eq_one (·.code) hinv2.2.1 hc1t2
    dsimp only at h0
    rwa [hcode1] at h0
  · rw [← hc12]

end ResolverLemmas

section CreateLemmas

open Schemas Crud Routes

/-- The committed movie row is found again by the re-fetch: its generated id
is fresh, so the point lookup lands on the appended row. -/
theorem get_movie_by_id_fresh (db : DB) (p : MovieCreateSchema)
    (hwf : WF db) :
    get_movie_by_id (create_movie_db db p) (create_movie_row db p).id =
      some (create_movie_row db p) := by
  unfold get_movie_by_id
  show ((db.movies ++ [create_movie_row db p]).find?
    (fun m => m.id == (create_movie_row db p).id)) = _
  rw [List.find?_append]
  have h1 : db.movies.find?
      (fun m => m.id == (create_movie_row db p).id) = none := by
    apply List.find?_eq_none.mpr
    intro x hx
    have hlt : x.id < db.next_movie_id := hwf.1.2 x hx
    have : (create_movie_row db p).id = db.next_movie_id := rfl
    simp only [this, beq_iff_eq]
    omega
  rw [h1]
  simp

/-- crud.create_movie returns the constructed row (the re-fetch cannot
miss). -/
theorem create_movie_eq (db : DB) (p : MovieCreateSchema) (hwf : WF db) :
    Crud.create_movie db p =
      (some (create_movie_row db p), create_movie_db db p) := by
  unfold Crud.create_movie
  rw [get_movie_by_id_fresh db p hwf]

/-- A commit of crud.create_movie preserves store well-formedness. -/
theorem wf_create_movie_db (db : DB) (p : MovieCreateSchema) (hwf : WF db) :
    WF (create_movie_db db p) := by
  obtain ⟨⟨hmid, hmlt⟩, hc, hg, ha, hl⟩ := hwf
  refine ⟨⟨?_, ?_⟩, (get_or_create_country_inv p.country hc).1,
    (resolve_names_inv p.genres hg).1, (resolve_names_inv p.actors ha).1,
    (resolve_names_inv p.languages hl).1⟩
  · show ((db.movies ++ [create_movie_row db p]).map (·.id)).Nodup
    simp only [List.map_append, List.map_cons, List.map_nil,
      List.nodup_append]
    refine ⟨hmid, List.nodup_singleton _, ?_⟩
    intro i hi
    simp only [List.mem_singleton]
    rcases List.mem_map.mp hi with ⟨m, hm, rfl⟩
    have : (create_movie_row db p).id = db.next_movie_id := rfl
    rw [this]
    exact fun hc' => absurd (hc' ▸ hmlt m hm) (lt_irrefl db.next_movie_id)
  · intro m hm
    show m.id < db.next_movie_id + 1
    rcases List.mem_append.mp hm with hm' | hm'
    · exact Nat.lt_succ_of_lt (hmlt m hm')
    · rcases List.mem_singleton.mp hm' with rfl
      exact Nat.lt_succ_self db.next_movie_id

/-- A validated, conflict-free request makes routes.create_movie succeed
with exactly the constructed row and the committed store. -/
theorem routes_create_ok (today : Int) (db : DB) (p : MovieCreateSchema)
    (hwf : WF db) (hv : validate_create today p = true)
    (hnew : Crud.get_movie_by_name_and_date db p.name p.date = none) :
    Routes.create_movie today db p =
      (Except.ok (create_movie_row db p), create_movie_db db p) := by
  unfold Routes.create_movie
  rw [if_pos hv, hnew]
  simp only [create_movie_eq db p hwf]

/-- Every branch of routes.create_movie leaves the store well-formed. -/
theorem wf_routes_create (today : Int) (db : DB) (p : MovieCreateSchema)
    (hwf : WF db) : WF (Routes.create_movie today db p).2 := by
  unfold Routes.create_movie
  by_cases hv : validate_create today p = true
  · rw [if_pos hv]
    cases hnew : Crud.get_movie_by_name_and_date db p.name p.date with
    | some m => exact hwf
    | none =>
      rw [create_movie_eq db p hwf]
      exact wf_create_movie_db db p hwf

  · rw [if_neg hv]
    exact hwf

/-- The fresh movie carries the (name, date) pair of the payload, so an existence
probe for a different pair passes through the commit unchanged. -/
theorem get_by_name_date_after_create (db : DB) (p : MovieCreateSchema)
    (name : String) (d : Int)
    (h : Crud.get_movie_by_name_and_date db name d = none)
    (hne : p.name ≠ name ∨ p.date ≠ d) :
    Crud.get_movie_by_name_and_date (create_movie_db db p) name d = none := by
  unfold Crud.get_movie_by_name_and_date at h ⊢
  show ((db.movies ++ [create_movie_row db p]).find? _) = none
  rw [List.find?_append, h]
  simp only [Option.none_or]
  apply List.find?_eq_none.mpr
  intro x hx
  rcases List.mem_singleton.mp hx with rfl
  have h1 : (create_movie_row db p).name = p.name := rfl
  have h2 : (create_movie_row db p).date = p.date := rfl
  simp only [h1, h2, Bool.and_eq_true, beq_iff_eq, not_and]
  intro hn hd
  rcases hne with hne | hne
  · exact hne hn
  · exact hne hd

/-- Serialising the committed movie hydrates every association: the country
row and the genre / actor / language rows the resolvers produced. -/
theorem hydrate_create (db : DB) (p : Schemas.MovieCreateSchema)
    (hwf : WF db) :
    Routes.hydrate (create_movie_db db p) (create_movie_row db p) =
      some { id := db.next_movie_id, name := p.name, date := p.date
             score := p.score, overview := p.overview, status := p.status
             budget := p.budget, revenue := p.revenue
             country := (get_or_create_country db.countries
               db.next_country_id p.country).1
             genres := (resolve_names db.genres db.next_genre_id p.genres).1
             actors := (resolve_names db.actors db.next_actor_id p.actors).1
             languages := (resolve_names db.languages db.next_language_id
               p.languages).1 } := by
  obtain ⟨hm, hc, hg, ha, hl⟩ := hwf
  have hcfind :
      (create_movie_db db p).countries.find?
        (fun c => c.id == (create_movie_row db p).country_id) =
      some (get_or_create_country db.countries db.next_country_id
        p.country).1 := by
    have := find?_key_of_mem (·.id)
      (l := (get_or_create_country db.countries db.next_country_id
        p.country).2.1)
      ((get_or_create_country_inv p.country hc).1.1)
      (get_or_create_country_mem db.countries db.next_country_id p.country)
    exact this
  have hgfind :
      ((create_movie_row db p).genre_ids.mapM
        (fun i => (create_movie_db db p).genres.find? (fun x => x.id == i))) =
      some (resolve_names db.genres db.next_genre_id p.genres).1 :=
    mapM_find?_ids ((resolve_names_inv p.genres hg).1.1)
      (resolve_names_mem db.genres db.next_genre_id p.genres)
  have hafind :
      ((create_movie_row db p).actor_ids.mapM
        (fun i => (create_movie_db db p).actors.find? (fun x => x.id == i))) =
      some (resolve_names db.actors db.next_actor_id p.actors).1 :=
    mapM_find?_ids ((resolve_names_inv p.actors ha).1.1)
      (resolve_names_mem db.actors db.next_actor_id p.actors)
  have hlfind :
      ((create_movie_row db p).language_ids.mapM
        (fun i =>
          (create_movie_db db p).languages.find? (fun x => x.id == i))) =
      some (resolve_names db.languages db.next_language_id p.languages).1 :=
    mapM_find?_ids ((resolve_names_inv p.languages hl).1.1)
      (resolve_names_mem db.languages db.next_language_id p.languages)
  unfold Routes.hydrate
  rw [hcfind]
  simp only [Option.bind_eq_bind, Option.some_bind]
  rw [hgfind]
  simp only [Option.some_bind]
  rw [hafind]
  simp only [Option.some_bind]
  rw [hlfind]
  simp only [Option.some_bind]
  rfl

/-- The in-place field update never changes the id of a row. -/
theorem apply_update_id (m : MovieModel) (u : Schemas.MovieUpdateSchema) :
    (apply_update m u).id = m.id := rfl

/-- Point lookup commutes with the per-row update map of crud.update_movie:
the looked-up row is the stored one, updated iff it is the targeted row. -/
theorem find?_map_update (l : List MovieModel) (i j : Nat)
    (u : Schemas.MovieUpdateSchema) :
    (l.map (fun r => if r.id == i then apply_update r u else r)).find?
        (fun r => r.id == j) =
      (l.find? (fun r => r.id == j)).map
        (fun r => if r.id == i then apply_update r u else r) := by
  induction l with
  | nil => rfl
  | cons a t ih =>
    have hkey : ((if a.id == i then apply_update a u else a).id) = a.id := by
      split
      · rfl
      · rfl
    rw [List.map_cons]
    by_cases h : (a.id == j) = true
    · have e1 : ((if a.id == i then apply_update a u else a) ::
          t.map (fun r => if r.id == i then apply_update r u else r)).find?
            (fun r => r.id == j) =
          some (if a.id == i then apply_update a u else a) :=
        List.find?_cons_of_pos _ (by
          show ((if a.id == i then apply_update a u else a).id == j) = true
          rw [hkey]; exact h)
      have e2 : (a :: t).find? (fun r => r.id == j) = some a :=
        List.find?_cons_of_pos _ h
      rw [e1, e2]
      rfl
    · have e1 : ((if a.id == i then apply_update a u else a) ::
          t.map (fun r => if r.id == i then apply_update r u else r)).find?
            (fun r => r.id == j) =
          (t.map (fun r => if r.id == i then apply_update r u else r)).find?
            (fun r => r.id == j) :=
        List.find?_cons_of_neg _ (by
          show ¬((if a.id == i then apply_update a u else a).id == j) = true
          rw [hkey]; exact h)
      have e2 : (a :: t).find? (fun r => r.id == j) =
          t.find? (fun r => r.id == j) :=
        List.find?_cons_of_neg _ h
      rw [e1, e2, ih]

end CreateLemmas

/-! The claims. -/

section Claims

open Schemas Crud Routes

/-- C1: for every valid create payload whose (name, date) pair matches no
stored movie, create succeeds, and get-by-id on the id of the returned movie
yields a detail view whose scalar fields equal those of the payload, whose country
is the resolved country row, and whose genre / actor / language associations
are fully hydrated rows of the reference tables carrying exactly the
names of the payload, deduplicated by natural key (equal names give the identical
entity). -/
theorem create_then_get_matches_payload (today : Int) (db : DB)
    (p : MovieCreateSchema) (hwf : WF db)
    (hv : validate_create today p = true)
    (hnew : Crud.get_movie_by_name_and_date db p.name p.date = none) :
    ∃ m db1 d,
      Routes.create_movie today db p = (Except.ok m, db1)
      ∧ Routes.get_movie db1 m.id = Except.ok d
      ∧ d.name = p.name ∧ d.date = p.date ∧ d.score = p.score
      ∧ d.overview = p.overview ∧ d.status = p.status
      ∧ d.budget = p.budget ∧ d.revenue = p.revenue
      ∧ d.country.code = p.country ∧ d.country ∈ db1.countries
      ∧ d.genres.map (·.name) = p.genres
      ∧ d.actors.map (·.name) = p.actors
      ∧ d.languages.map (·.name) = p.languages
      ∧ (∀ g ∈ d.genres, g ∈ db1.genres)
      ∧ (∀ a ∈ d.actors, a ∈ db1.actors)
      ∧ (∀ l ∈ d.languages, l ∈ db1.languages)
      ∧ (∀ g1 ∈ d.genres, ∀ g2 ∈ d.genres, g1.name = g2.name → g1 = g2)
      ∧ (∀ a1 ∈ d.actors, ∀ a2 ∈ d.actors, a1.name = a2.name → a1 = a2)
      ∧ (∀ l1 ∈ d.languages, ∀ l2 ∈ d.languages, l1.name = l2.name →
          l1 = l2) := by
  obtain ⟨hm, hc, hg, ha, hl⟩ := hwf
  have hwf' : WF db := ⟨hm, hc, hg, ha, hl⟩
  refine ⟨create_movie_row db p, create_movie_db db p,
    { id := db.next_movie_id, name := p.name, date := p.date
      score := p.score, overview := p.overview, status := p.status
      budget := p.budget, revenue := p.revenue
      country := (get_or_create_country db.countries db.next_country_id
        p.country).1
      genres := (resolve_names db.genres db.next_genre_id p.genres).1
      actors := (resolve_names db.actors db.next_actor_id p.actors).1
      languages := (resolve_names db.languages db.next_language_id
        p.languages).1 },
    routes_create_ok today db p hwf' hv hnew, ?_, rfl, rfl, rfl, rfl, rfl,
    rfl, rfl,
    get_or_create_country_code db.countries db.next_country_id p.country,
    get_or_create_country_mem db.countries db.next_country_id p.country,
    resolve_names_map_name db.genres db.next_genre_id p.genres,
    resolve_names_map_name db.actors db.next_actor_id p.actors,
    resolve_names_map_name db.languages db.next_language_id p.languages,
    resolve_names_mem db.genres db.next_genre_id p.genres,
    resolve_names_mem db.actors db.next_actor_id p.actors,
    resolve_names_mem db.languages db.next_language_id p.languages,
    ?_, ?_, ?_⟩
  · unfold Routes.get_movie
    rw [get_movie_by_id_fresh db p hwf']
    show (match Routes.hydrate (create_movie_db db p) (create_movie_row db p)
      with
      | some d => Except.ok d
      | none => Except.error ApiError.internal) = _
    rw [hydrate_create db p hwf']
  · intro g1 h1 g2 h2 hname
    exact List.inj_on_of_nodup_map ((resolve_names_inv p.genres hg).1.2.1)
      (resolve_names_mem db.genres db.next_genre_id p.genres g1 h1)
      (resolve_names_mem db.genres db.next_genre_id p.genres g2 h2) hname
  · intro a1 h1 a2 h2 hname
    exact List.inj_on_of_nodup_map ((resolve_names_inv p.actors ha).1.2.1)
      (resolve_names_mem db.actors db.next_actor_id p.actors a1 h1)
      (resolve_names_mem db.actors db.next_actor_id p.actors a2 h2) hname
  · intro l1 h1 l2 h2 hname
    exact List.inj_on_of_nodup_map ((resolve_names_inv p.languages hl).1.2.1)
      (resolve_names_mem db.languages db.next_language_id p.languages l1 h1)
      (resolve_names_mem db.languages db.next_language_id p.languages l2 h2)
      hname

/-- Witness for C1: the theorem applied to `c1_payload` on the empty store. -/
theorem create_then_get_matches_payload_witness :
    ∃ m db1 d,
      Routes.create_movie 0 DB.empty c1_payload = (Except.ok m, db1)
      ∧ Routes.get_movie db1 m.id = Except.ok d
      ∧ d.name = c1_payload.name ∧ d.date = c1_payload.date
      ∧ d.score = c1_payload.score
      ∧ d.overview = c1_payload.overview ∧ d.status = c1_payload.status
      ∧ d.budget = c1_payload.budget ∧ d.revenue = c1_payload.revenue
      ∧ d.country.code = c1_payload.country ∧ d.country ∈ db1.countries
      ∧ d.genres.map (·.name) = c1_payload.genres
      ∧ d.actors.map (·.name) = c1_payload.actors
      ∧ d.languages.map (·.name) = c1_payload.languages
      ∧ (∀ g ∈ d.genres, g ∈ db1.genres)
      ∧ (∀ a ∈ d.actors, a ∈ db1.actors)
      ∧ (∀ l ∈ d.languages, l ∈ db1.languages)
      ∧ (∀ g1 ∈ d.genres, ∀ g2 ∈ d.genres, g1.name = g2.name → g1 = g2)
      ∧ (∀ a1 ∈ d.actors, ∀ a2 ∈ d.actors, a1.name = a2.name → a1 = a2)
      ∧ (∀ l1 ∈ d.languages, ∀ l2 ∈ d.languages, l1.name = l2.name →
          l1 = l2) :=
  create_then_get_matches_payload 0 DB.empty c1_payload (by decide)
    (by decide) rfl

/-- C2: get-or-create is idempotent.  The resolver returns an existing entity
unchanged when a row with its natural key is present and creates-and-flushes
a fresh one only when absent; after two sequential successful creates that
share a country code or a genre / actor / language name, exactly one
reference entity with that natural key exists and both movies are linked to
that same entity. -/
theorem get_or_create_idempotent (today : Int) (db : DB)
    (p1 p2 : MovieCreateSchema) (k : String) (hwf : WF db)
    (hv1 : validate_create today p1 = true)
    (hv2 : validate_create today p2 = true)
    (hnew1 : Crud.get_movie_by_name_and_date db p1.name p1.date = none)
    (hnew2 : Crud.get_movie_by_name_and_date
      (Routes.create_movie today db p1).2 p2.name p2.date = none) :
    ∃ m1 m2,
      (Routes.create_movie today db p1).1 = Except.ok m1
      ∧ (Routes.create_movie today
          (Routes.create_movie today db p1).2 p2).1 = Except.ok m2
      ∧ (k ∈ p1.genres → k ∈ p2.genres →
          ∃ g, g ∈ (Routes.create_movie today
              (Routes.create_movie today db p1).2 p2).2.genres
            ∧ g.name = k
            ∧ ((Routes.create_movie today
                (Routes.create_movie today db p1).2 p2).2.genres.map
                  (·.name)).count k = 1
            ∧ g.id ∈ m1.genre_ids ∧ g.id ∈ m2.genre_ids)
      ∧ (k ∈ p1.actors → k ∈ p2.actors →
          ∃ a, a ∈ (Routes.create_movie today
              (Routes.create_movie today db p1).2 p2).2.actors
            ∧ a.name = k
            ∧ ((Routes.create_movie today
                (Routes.create_movie today db p1).2 p2).2.actors.map
                  (·.name)).count k = 1
            ∧ a.id ∈ m1.actor_ids ∧ a.id ∈ m2.actor_ids)
      ∧ (k ∈ p1.languages → k ∈ p2.languages →
          ∃ l, l ∈ (Routes.create_movie today
              (Routes.create_movie today db p1).2 p2).2.languages
            ∧ l.name = k
            ∧ ((Routes.create_movie today
                (Routes.create_movie today db p1).2 p2).2.languages.map
                  (·.name)).count k = 1
            ∧ l.id ∈ m1.language_ids ∧ l.id ∈ m2.language_ids)
      ∧ (p1.country = k → p2.country = k →
          ∃ c, c ∈ (Routes.create_movie today
              (Routes.create_movie today db p1).2 p2).2.countries
            ∧ c.code = k
            ∧ ((Routes.create_movie today
                (Routes.create_movie today db p1).2 p2).2.countries.map
                  (·.code)).count k = 1
            ∧ m1.country_id = c.id ∧ m2.country_id = c.id)
      ∧ (∀ rows ctr (r : NamedModel), r ∈ rows → r.name = k →
          (rows.map (·.name)).Nodup →
          Crud.get_or_create_by_name rows ctr k = (r, rows, ctr))
      ∧ (∀ rows ctr, (∀ r : NamedModel, r ∈ rows → r.name ≠ k) →
          Crud.get_or_create_by_name rows ctr k =
            ({ id := ctr, name := k }, rows ++ [{ id := ctr, name := k }],
              ctr + 1))
      ∧ (∀ rows ctr (r : CountryModel), r ∈ rows → r.code = k →
          (rows.map (·.code)).Nodup →
          Crud.get_or_create_country rows ctr k = (r, rows, ctr))
      ∧ (∀ rows ctr, (∀ r : CountryModel, r ∈ rows → r.code ≠ k) →
          Crud.get_or_create_country rows ctr k =
            ({ id := ctr, code := k, name := none },
              rows ++ [{ id := ctr, code := k, name := none }],
              ctr + 1)) := by
  have hdb1 := routes_create_ok today db p1 hwf hv1 hnew1
  have hnew2' : Crud.get_movie_by_name_and_date (create_movie_db db p1)
      p2.name p2.date = none := by
    rw [hdb1] at hnew2
    exact hnew2
  have hwf1 : WF (create_movie_db db p1) := wf_create_movie_db db p1 hwf
  have hdb2 := routes_create_ok today (create_movie_db db p1) p2 hwf1 hv2
    hnew2'
  rw [hdb1]
  dsimp only
  rw [hdb2]
  dsimp only
  refine ⟨create_movie_row db p1, create_movie_row (create_movie_db db p1) p2,
    rfl, rfl, ?_, ?_, ?_, ?_, ?_, ?_, ?_, ?_⟩
  · intro hk1 hk2
    exact resolve_pair_idempotent p1.genres p2.genres k hk1 hk2 hwf.2.2.1
  · intro hk1 hk2
    exact resolve_pair_idempotent p1.actors p2.actors k hk1 hk2 hwf.2.2.2.1
  · intro hk1 hk2
    exact resolve_pair_idempotent p1.languages p2.languages k hk1 hk2
      hwf.2.2.2.2
  · intro hk1 hk2
    obtain ⟨c, hcmem, hccode, hccount, hcid1, hcid2⟩ :=
      country_pair_idempotent p1.country p2.country k hk1 hk2 hwf.2.1
    exact ⟨c, hcmem, hccode, hccount, hcid1, hcid2⟩
  · intro rows ctr r hr hname hn
    exact get_or_create_by_name_found hr hname hn
  · intro rows ctr h
    exact get_or_create_by_name_absent h
  · intro rows ctr r hr hcode hn
    exact get_or_create_country_found hr hcode hn
  · intro rows ctr h
    exact get_or_create_country_absent h

/-- Witness for C2: the theorem applied to two concrete creates sharing the
genre name Drama (and the country code FR), on the empty store. -/
theorem get_or_create_idempotent_witness :
    (∃ m1 m2,
      (Routes.create_movie 0 DB.empty c2_payload1).1 = Except.ok m1
      ∧ (Routes.create_movie 0
          (Routes.create_movie 0 DB.empty c2_payload1).2 c2_payload2).1 =
            Except.ok m2
      ∧ ("Drama" ∈ c2_payload1.genres → "Drama" ∈ c2_payload2.genres →
          ∃ g, g ∈ (Routes.create_movie 0
              (Routes.create_movie 0 DB.empty c2_payload1).2
                c2_payload2).2.genres
            ∧ g.name = "Drama"
            ∧ ((Routes.create_movie 0
                (Routes.create_movie 0 DB.empty c2_payload1).2
                  c2_payload2).2.genres.map (·.name)).count "Drama" = 1
            ∧ g.id ∈ m1.genre_ids ∧ g.id ∈ m2.genre_ids)
      ∧ ("Drama" ∈ c2_payload1.actors → "Drama" ∈ c2_payload2.actors →
          ∃ a, a ∈ (Routes.create_movie 0
              (Routes.create_movie 0 DB.empty c2_payload1).2
                c2_payload2).2.actors
            ∧ a.name = "Drama"
            ∧ ((Routes.create_movie 0
                (Routes.create_movie 0 DB.empty c2_payload1).2
                  c2_payload2).2.actors.map (·.name)).count "Drama" = 1
            ∧ a.id ∈ m1.actor_ids ∧ a.id ∈ m2.actor_ids)
      ∧ ("Drama" ∈ c2_payload1.languages → "Drama" ∈ c2_payload2.languages →
          ∃ l, l ∈ (Routes.create_movie 0
              (Routes.create_movie 0 DB.empty c2_payload1).2
                c2_payload2).2.languages
            ∧ l.name = "Drama"
            ∧ ((Routes.create_movie 0
                (Routes.create_movie 0 DB.empty c2_payload1).2
                  c2_payload2).2.languages.map (·.name)).count "Drama" = 1
            ∧ l.id ∈ m1.language_ids ∧ l.id ∈ m2.language_ids)
      ∧ (c2_payload1.country = "Drama" → c2_payload2.country = "Drama" →
          ∃ c, c ∈ (Routes.create_movie 0
              (Routes.create_movie 0 DB.empty c2_payload1).2
                c2_payload2).2.countries
            ∧ c.code = "Drama"
            ∧ ((Routes.create_movie 0
                (Routes.create_movie 0 DB.empty c2_payload1).2
                  c2_payload2).2.countries.map (·.code)).count "Drama" = 1
            ∧ m1.country_id = c.id ∧ m2.country_id = c.id)
      ∧ (∀ rows ctr (r : NamedModel), r ∈ rows → r.name = "Drama" →
          (rows.map (·.name)).Nodup →
          Crud.get_or_create_by_name rows ctr "Drama" = (r, rows, ctr))
      ∧ (∀ rows ctr, (∀ r : NamedModel, r ∈ rows → r.name ≠ "Drama") →
          Crud.get_or_create_by_name rows ctr "Drama" =
            ({ id := ctr, name := "Drama" },
              rows ++ [{ id := ctr, name := "Drama" }], ctr + 1))
      ∧ (∀ rows ctr (r : CountryModel), r ∈ rows → r.code = "Drama" →
          (rows.map (·.code)).Nodup →
          Crud.get_or_create_country rows ctr "Drama" = (r, rows, ctr))
      ∧ (∀ rows ctr, (∀ r : CountryModel, r ∈ rows → r.code ≠ "Drama") →
          Crud.get_or_create_country rows ctr "Drama" =
            ({ id := ctr, code := "Drama", name := none },
              rows ++ [{ id := ctr, code := "Drama", name := none }],
              ctr + 1)))
    ∧ "Drama" ∈ c2_payload1.genres ∧ "Drama" ∈ c2_payload2.genres :=
  ⟨get_or_create_idempotent 0 DB.empty c2_payload1 c2_payload2 "Drama"
    (by decide) (by decide) (by decide) rfl (by decide),
    by decide, by decide⟩

/-- C3: a create request whose (name, date) pair equals that of a stored movie
fails with Conflict, and the store is returned unchanged: no movie row, no
reference row, no association link is touched. -/
theorem create_conflict_no_persistence (today : Int) (db : DB)
    (p : MovieCreateSchema) (m : MovieModel)
    (hv : validate_create today p = true)
    (hex : Crud.get_movie_by_name_and_date db p.name p.date = some m) :
    ∃ detail, Routes.create_movie today db p =
      (Except.error (ApiError.conflict detail), db) := by
  unfold Routes.create_movie
  rw [if_pos hv, hex]
  exact ⟨_, rfl⟩

/-- Witness for C3: the conflicting concrete create on `seed_db`. -/
theorem create_conflict_no_persistence_witness :
    ∃ detail, Routes.create_movie 0 seed_db c3_payload =
      (Except.error (ApiError.conflict detail), seed_db) :=
  create_conflict_no_persistence 0 seed_db c3_payload seed_row (by decide)
    (by decide)

/-- C4: update changes exactly the fields explicitly present in the partial
payload: the route succeeds, the unset fields of the targeted movie and all four
associations are untouched, set fields take the payload value, every other
movie row and every reference table is unchanged. -/
theorem update_partial_frame (today : Int) (db : DB) (movie_id : Nat)
    (u : MovieUpdateSchema) (m : MovieModel)
    (hv : validate_update today u = true)
    (hm : Crud.get_movie_by_id db movie_id = some m) :
    Routes.update_movie today db movie_id u =
      (Except.ok "Movie updated successfully.", Crud.update_movie db m u)
    ∧ Crud.get_movie_by_id (Crud.update_movie db m u) movie_id =
        some (apply_update m u)
    ∧ (∀ j, j ≠ movie_id →
        Crud.get_movie_by_id (Crud.update_movie db m u) j =
          Crud.get_movie_by_id db j)
    ∧ (Crud.update_movie db m u).countries = db.countries
    ∧ (Crud.update_movie db m u).genres = db.genres
    ∧ (Crud.update_movie db m u).actors = db.actors
    ∧ (Crud.update_movie db m u).languages = db.languages
    ∧ (apply_update m u).id = m.id
    ∧ (apply_update m u).country_id = m.country_id
    ∧ (apply_update m u).genre_ids = m.genre_ids
    ∧ (apply_update m u).actor_ids = m.actor_ids
    ∧ (apply_update m u).language_ids = m.language_ids
    ∧ (u.name = none → (apply_update m u).name = m.name)
    ∧ (∀ v, u.name = some v → (apply_update m u).name = v)
    ∧ (u.date = none → (apply_update m u).date = m.date)
    ∧ (∀ v, u.date = some v → (apply_update m u).date = v)
    ∧ (u.score = none → (apply_update m u).score = m.score)
    ∧ (∀ v, u.score = some v → (apply_update m u).score = v)
    ∧ (u.overview = none → (apply_update m u).overview = m.overview)
    ∧ (∀ v, u.overview = some v → (apply_update m u).overview = v)
    ∧ (u.status = none → (apply_update m u).status = m.status)
    ∧ (∀ v, u.status = some v → (apply_update m u).status = v)
    ∧ (u.budget = none → (apply_update m u).budget = m.budget)
    ∧ (∀ v, u.budget = some v → (apply_update m u).budget = v)
    ∧ (u.revenue = none → (apply_update m u).revenue = m.revenue)
    ∧ (∀ v, u.revenue = some v → (apply_update m u).revenue = v) := by
  have hm' : db.movies.find? (fun r => r.id == movie_id) = some m := hm
  have hid' : m.id = movie_id := by simpa using List.find?_some hm'
  refine ⟨?_, ?_, ?_, rfl, rfl, rfl, rfl, rfl, rfl, rfl, rfl, rfl,
    ?_, ?_, ?_, ?_, ?_, ?_, ?_, ?_, ?_, ?_, ?_, ?_, ?_, ?_⟩
  · unfold Routes.update_movie
    rw [if_pos hv, hm]
  · show ((db.movies.map
        (fun r => if r.id == m.id then apply_update r u else r)).find?
        (fun r => r.id == movie_id)) = _
    rw [find?_map_update, hm']
    simp [hid']
  · intro j hj
    show ((db.movies.map
        (fun r => if r.id == m.id then apply_update r u else r)).find?
        (fun r => r.id == j)) = db.movies.find? (fun r => r.id == j)
    rw [find?_map_update]
    cases hfind : db.movies.find? (fun r => r.id == j) with
    | none => rfl
    | some x =>
      have hx := List.find?_some hfind
      have hx' : x.id = j := by simpa using hx
      have hne : ¬((x.id == m.id) = true) := by
        simp only [beq_iff_eq]
        rw [hx', hid']
        exact hj
      show some (if x.id == m.id then apply_update x u else x) = some x
      rw [if_neg hne]
  · intro h; simp [apply_update, h]
  · intro v h; simp [apply_update, h]
  · intro h; simp [apply_update, h]
  · intro v h; simp [apply_update, h]
  · intro h; simp [apply_update, h]
  · intro v h; simp [apply_update, h]
  · intro h; simp [apply_update, h]
  · intro v h; simp [apply_update, h]
  · intro h; simp [apply_update, h]
  · intro v h; simp [apply_update, h]
  · intro h; simp [apply_update, h]
  · intro v h; simp [apply_update, h]
  · intro h; simp [apply_update, h]
  · intro v h; simp [apply_update, h]

/-- Witness for C4: the score-only update of the example in the spec applied to
the stored (Alpha, 10) movie. -/
theorem update_partial_frame_witness :
    Routes.update_movie 0 seed_db 1 c4_update =
      (Except.ok "Movie updated successfully.",
        Crud.update_movie seed_db seed_row c4_update)
    ∧ Crud.get_movie_by_id (Crud.update_movie seed_db seed_row c4_update) 1 =
        some (apply_update seed_row c4_update)
    ∧ (∀ j, j ≠ 1 →
        Crud.get_movie_by_id (Crud.update_movie seed_db seed_row c4_update) j =
          Crud.get_movie_by_id seed_db j)
    ∧ (Crud.update_movie seed_db seed_row c4_update).countries =
        seed_db.countries
    ∧ (Crud.update_movie seed_db seed_row c4_update).genres = seed_db.genres
    ∧ (Crud.update_movie seed_db seed_row c4_update).actors = seed_db.actors
    ∧ (Crud.update_movie seed_db seed_row c4_update).languages =
        seed_db.languages
    ∧ (apply_update seed_row c4_update).id = seed_row.id
    ∧ (apply_update seed_row c4_update).country_id = seed_row.country_id
    ∧ (apply_update seed_row c4_update).genre_ids = seed_row.genre_ids
    ∧ (apply_update seed_row c4_update).actor_ids = seed_row.actor_ids
    ∧ (apply_update seed_row c4_update).language_ids = seed_row.language_ids
    ∧ (c4_update.name = none →
        (apply_update seed_row c4_update).name = seed_row.name)
    ∧ (∀ v, c4_update.name = some v →
        (apply_update seed_row c4_update).name = v)
    ∧ (c4_update.date = none →
        (apply_update seed_row c4_update).date = seed_row.date)
    ∧ (∀ v, c4_update.date = some v →
        (apply_update seed_row c4_update).date = v)
    ∧ (c4_update.score = none →
        (apply_update seed_row c4_update).score = seed_row.score)
    ∧ (∀ v, c4_update.score = some v →
        (apply_update seed_row c4_update).score = v)
    ∧ (c4_update.overview = none →
        (apply_update seed_row c4_update).overview = seed_row.overview)
    ∧ (∀ v, c4_update.overview = some v →
        (apply_update seed_row c4_update).overview = v)
    ∧ (c4_update.status = none →
        (apply_update seed_row c4_update).status = seed_row.status)
    ∧ (∀ v, c4_update.status = some v →
        (apply_update seed_row c4_update).status = v)
    ∧ (c4_update.budget = none →
        (apply_update seed_row c4_update).budget = seed_row.budget)
    ∧ (∀ v, c4_update.budget = some v →
        (apply_update seed_row c4_update).budget = v)
    ∧ (c4_update.revenue = none →
        (apply_update seed_row c4_update).revenue = seed_row.revenue)
    ∧ (∀ v, c4_update.revenue = some v →
        (apply_update seed_row c4_update).revenue = v) :=
  update_partial_frame 0 seed_db 1 c4_update seed_row (by decide) (by decide)

/-- C5: a successful list response windows the stored movies, ordered by
descending id, at offset (page - 1) * per_page with limit per_page;
total_items is the independent full count; total_pages is the ceiling of
total_items / per_page; a prev link is present exactly when page > 1 and a
next link exactly when page < total_pages. -/
theorem list_pagination_correct (db : DB) (page per_page : Nat)
    (r : MovieListResponseSchema) (hpage : 1 ≤ page) (hpp1 : 1 ≤ per_page)
    (hpp2 : per_page ≤ 20)
    (hres : Routes.list_movies db page per_page = Except.ok r) :
    r.total_items = db.movies.length
    ∧ (∃ sorted : List MovieModel,
        sorted.Perm db.movies ∧ sorted.Sorted Crud.movie_desc
        ∧ r.movies = (sorted.drop ((page - 1) * per_page)).take per_page)
    ∧ r.total_pages = r.total_items ⌈/⌉ per_page
    ∧ r.total_items ≤ per_page * r.total_pages
    ∧ (r.prev_page.isSome = true ↔ 1 < page)
    ∧ (r.next_page.isSome = true ↔ page < r.total_pages) := by
  unfold Routes.list_movies at hres
  rw [if_pos ⟨hpage, hpp1, hpp2⟩] at hres
  by_cases hemp : (Crud.get_movies_paginated db page per_page).1.isEmpty = true
  · rw [if_pos hemp] at hres
    exact absurd hres (by simp)
  · rw [if_neg hemp] at hres
    obtain rfl := (Except.ok.inj hres).symm
    refine ⟨rfl, ⟨db.movies.insertionSort Crud.movie_desc,
      List.perm_insertionSort Crud.movie_desc db.movies,
      List.sorted_insertionSort Crud.movie_desc db.movies, rfl⟩, rfl, ?_, ?_,
      ?_⟩
    · have h := le_smul_ceilDiv
        (b := (Crud.get_movies_paginated db page per_page).2)
        (Nat.lt_of_lt_of_le Nat.zero_lt_one hpp1)
      simpa [smul_eq_mul] using h
    · show (Routes.pagination_meta page per_page
        (Crud.get_movies_paginated db page per_page).2).2.1.isSome = true ↔
          1 < page
      unfold Routes.pagination_meta
      by_cases hp : page > 1
      · simp [hp]
      · simp [hp]
    · show (Routes.pagination_meta page per_page
        (Crud.get_movies_paginated db page per_page).2).2.2.isSome = true ↔
          page < (Routes.pagination_meta page per_page
            (Crud.get_movies_paginated db page per_page).2).1
      unfold Routes.pagination_meta
      by_cases hp : page <
          ((Crud.get_movies_paginated db page per_page).2 + per_page - 1) /
            per_page
      · simp [hp]
      · simp [hp]

/-- Witness for C5: the theorem applied to the one-movie store `seed_db`. -/
theorem list_pagination_correct_witness :
    ∃ r, Routes.list_movies seed_db 1 10 = Except.ok r
      ∧ (r.total_items = seed_db.movies.length
        ∧ (∃ sorted : List MovieModel,
            sorted.Perm seed_db.movies ∧ sorted.Sorted Crud.movie_desc
            ∧ r.movies = (sorted.drop ((1 - 1) * 10)).take 10)
        ∧ r.total_pages = r.total_items ⌈/⌉ 10
        ∧ r.total_items ≤ 10 * r.total_pages
        ∧ (r.prev_page.isSome = true ↔ 1 < 1)
        ∧ (r.next_page.isSome = true ↔ 1 < r.total_pages)) :=
  ⟨{ movies := [seed_row], prev_page := none, next_page := none
     total_pages := 1, total_items := 1 }, rfl,
    list_pagination_correct seed_db 1 10 _ (by decide) (by decide) (by decide)
      rfl⟩

/-- C6 counterexample: on an empty store, the list call raises NotFound
instead of yielding a response carrying total_pages = 0. -/
theorem empty_list_notfound_cex :
    Routes.list_movies DB.empty 1 10 =
      Except.error (ApiError.notFound "No movies found.") := rfl

/-- C6 amended: when the store is empty the list route raises NotFound
(no pagination metadata is returned); the pagination arithmetic itself, fed
total_count = 0, yields total_pages = 0, no prev link at page 1, and never
a next link. -/
theorem empty_list_notfound_amended (db : DB) (page per_page : Nat)
    (hm : db.movies = []) (hpage : 1 ≤ page) (hpp1 : 1 ≤ per_page)
    (hpp2 : per_page ≤ 20) :
    Routes.list_movies db page per_page =
      Except.error (ApiError.notFound "No movies found.")
    ∧ (Routes.pagination_meta page per_page 0).1 = 0
    ∧ (Routes.pagination_meta 1 per_page 0).2.1 = none
    ∧ (Routes.pagination_meta page per_page 0).2.2 = none := by
  have hpages : (0 + per_page - 1) / per_page = 0 := by
    rw [Nat.zero_add]
    exact Nat.div_eq_of_lt (by omega)
  refine ⟨?_, ?_, ?_, ?_⟩
  · unfold Routes.list_movies
    rw [if_pos ⟨hpage, hpp1, hpp2⟩]
    have hemp : (Crud.get_movies_paginated db page per_page).1.isEmpty =
        true := by
      unfold Crud.get_movies_paginated
      rw [hm]
      simp
    rw [if_pos hemp]
  · show (0 + per_page - 1) / per_page = 0
    exact hpages
  · unfold Routes.pagination_meta
    simp
  · unfold Routes.pagination_meta
    simp only [hpages]
    simp

/-- Witness for the amended theorem of C6: the empty store at page 1,
per_page 10. -/
theorem empty_list_notfound_amended_witness :
    Routes.list_movies DB.empty 1 10 =
      Except.error (ApiError.notFound "No movies found.")
    ∧ (Routes.pagination_meta 1 10 0).1 = 0
    ∧ (Routes.pagination_meta 1 10 0).2.1 = none
    ∧ (Routes.pagination_meta 1 10 0).2.2 = none :=
  empty_list_notfound_amended DB.empty 1 10 rfl (by decide) (by decide)
    (by decide)

/-- C10: a list call sees an empty window exactly when the offset reaches the
table size (an empty table included), and then raises NotFound
(No movies found.); a successful response never carries an empty movie
list. -/
theorem empty_window_is_notfound (db : DB) (page per_page : Nat)
    (hpage : 1 ≤ page) (hpp1 : 1 ≤ per_page) (hpp2 : per_page ≤ 20) :
    (Routes.list_movies db page per_page =
        Except.error (ApiError.notFound "No movies found.")
      ↔ db.movies.length ≤ (page - 1) * per_page)
    ∧ ∀ r, Routes.list_movies db page per_page = Except.ok r →
        r.movies ≠ [] := by
  have hlen : (db.movies.insertionSort Crud.movie_desc).length =
      db.movies.length :=
    (List.perm_insertionSort Crud.movie_desc db.movies).length_eq
  have hwin : ((db.movies.insertionSort Crud.movie_desc).drop
        ((page - 1) * per_page)).take per_page = [] ↔
      db.movies.length ≤ (page - 1) * per_page := by
    rw [List.take_eq_nil_iff]
    constructor
    · rintro (h | h)
      · omega
      · have := List.drop_eq_nil_iff.mp h
        omega
    · intro h
      right
      exact List.drop_eq_nil_iff.mpr (by omega)
  unfold Routes.list_movies
  rw [if_pos ⟨hpage, hpp1, hpp2⟩]
  by_cases hemp : (Crud.get_movies_paginated db page per_page).1.isEmpty = true
  · have hempl : ((db.movies.insertionSort Crud.movie_desc).drop
        ((page - 1) * per_page)).take per_page = [] :=
      List.isEmpty_iff.mp hemp
    rw [if_pos hemp]
    refine ⟨⟨fun _ => hwin.mp hempl, fun _ => rfl⟩, ?_⟩
    intro r hr
    exact absurd hr (by simp)
  · have hempl : ¬(((db.movies.insertionSort Crud.movie_desc).drop
        ((page - 1) * per_page)).take per_page = []) := by
      intro h
      exact hemp (List.isEmpty_iff.mpr h)
    rw [if_neg hemp]
    refine ⟨⟨fun h => absurd h (by simp), fun h => absurd (hwin.mpr h) hempl⟩,
      ?_⟩
    intro r hr
    obtain rfl := (Except.ok.inj hr).symm
    exact hempl

/-- Witness for C10: on the one-movie store `seed_db`, page 1 has a movie
(no NotFound) and page 2 is an empty window (NotFound). -/
theorem empty_window_is_notfound_witness :
    ((Routes.list_movies seed_db 2 10 =
        Except.error (ApiError.notFound "No movies found.")
      ↔ seed_db.movies.length ≤ (2 - 1) * 10)
      ∧ ∀ r, Routes.list_movies seed_db 2 10 = Except.ok r →
          r.movies ≠ [])
    ∧ Routes.list_movies seed_db 2 10 =
        Except.error (ApiError.notFound "No movies found.") :=
  ⟨empty_window_is_notfound seed_db 2 10 (by decide) (by decide) (by decide),
    (empty_window_is_notfound seed_db 2 10 (by decide) (by decide)
      (by decide)).1.mpr (by decide)⟩

/-- C7: invalid inputs are rejected before any persistence: a create payload
with score -1 or 101 fails validation with the store untouched, a create or
update payload dated more than 365 days after today fails validation with
the store untouched, and per_page = 21 is rejected at the pagination
boundary. -/
theorem invalid_inputs_rejected (today : Int) (db : DB) :
    (∀ p : MovieCreateSchema, p.score = -1 ∨ p.score = 101 →
      Routes.create_movie today db p = (Except.error ApiError.validation, db))
    ∧ (∀ p : MovieCreateSchema, today + 365 < p.date →
      Routes.create_movie today db p = (Except.error ApiError.validation, db))
    ∧ (∀ (movie_id : Nat) (u : MovieUpdateSchema) (d : Int),
      u.date = some d → today + 365 < d →
      Routes.update_movie today db movie_id u =
        (Except.error ApiError.validation, db))
    ∧ (∀ page, Routes.list_movies db page 21 =
        Except.error ApiError.validation) := by
  refine ⟨?_, ?_, ?_, ?_⟩
  · intro p hs
    unfold Routes.create_movie
    rw [if_neg ?_]
    intro hv
    simp only [validate_create, Bool.and_eq_true, decide_eq_true_eq] at hv
    obtain ⟨⟨⟨⟨⟨⟨⟨⟨_, _⟩, _⟩, hs0⟩, hs100⟩, _⟩, _⟩, _⟩, _⟩ := hv
    rcases hs with hs | hs
    · rw [hs] at hs0
      norm_num at hs0
    · rw [hs] at hs100
      norm_num at hs100
  · intro p hd
    unfold Routes.create_movie
    rw [if_neg ?_]
    intro hv
    simp only [validate_create, Bool.and_eq_true, decide_eq_true_eq] at hv
    obtain ⟨⟨⟨⟨⟨⟨⟨⟨_, _⟩, hdate⟩, _⟩, _⟩, _⟩, _⟩, _⟩, _⟩ := hv
    omega
  · intro movie_id u d hu hd
    unfold Routes.update_movie
    rw [if_neg ?_]
    intro hv
    simp only [validate_update, Bool.and_eq_true] at hv
    obtain ⟨⟨⟨_, _⟩, _⟩, hdate⟩ := hv
    rw [hu] at hdate
    simp only [Option.all_some, decide_eq_true_eq] at hdate
    omega
  · intro page
    unfold Routes.list_movies
    rw [if_neg ?_]
    intro h
    omega

/-- Witness for C7: score -1 rejected, a date 400 days ahead rejected on
update, per_page 21 rejected. -/
theorem invalid_inputs_rejected_witness :
    Routes.create_movie 0 DB.empty c7_payload =
      (Except.error ApiError.validation, DB.empty)
    ∧ Routes.update_movie 0 DB.empty 1 { date := some 400 } =
      (Except.error ApiError.validation, DB.empty)
    ∧ Routes.list_movies DB.empty 1 21 = Except.error ApiError.validation :=
  ⟨(invalid_inputs_rejected 0 DB.empty).1 c7_payload (Or.inl (by decide)),
    (invalid_inputs_rejected 0 DB.empty).2.2.1 1 { date := some 400 } 400 rfl
      (by decide),
    (invalid_inputs_rejected 0 DB.empty).2.2.2 1⟩

/-- C8 counterexample: the update schema does not constrain its string
fields, so the accepted partial update name = "" leaves a stored movie with
an empty name, violating the field invariants. -/
theorem update_breaks_invariants_cex :
    (seed_db.movies.all (fun m => decide (MovieInv m))) = true
    ∧ (Routes.update_movie 0 seed_db 1 { name := some "" }).1 =
      Except.ok "Movie updated successfully."
    ∧ ((Routes.update_movie 0 seed_db 1 { name := some "" }).2.movies.all
        (fun m => decide (MovieInv m))) = false :=
  ⟨rfl, rfl, rfl⟩

/-- C8 amended: create preserves the full field invariants of every stored
movie; update preserves the numeric invariants (score in [0,100], budget and
revenue nonnegative) but not the string-field invariants, since the update
schema does not validate name or overview. -/
theorem movie_invariants_amended (today : Int) (db : DB)
    (hall : ∀ m ∈ db.movies, MovieInv m) :
    (∀ (p : MovieCreateSchema) m',
      m' ∈ (Routes.create_movie today db p).2.movies → MovieInv m')
    ∧ (∀ (i : Nat) (u : MovieUpdateSchema) m',
      m' ∈ (Routes.update_movie today db i u).2.movies → MovieNumInv m') := by
  constructor
  · intro p m' hm'
    by_cases hv : validate_create today p = true
    · unfold Routes.create_movie at hm'
      rw [if_pos hv] at hm'
      cases hex : Crud.get_movie_by_name_and_date db p.name p.date with
      | some m =>
        rw [hex] at hm'
        exact hall m' hm'
      | none =>
        rw [hex] at hm'
        simp only [Crud.create_movie] at hm'
        have hm'' : m' ∈ db.movies ++ [create_movie_row db p] := by
          cases hfetch : Crud.get_movie_by_id (create_movie_db db p)
              (create_movie_row db p).id with
          | some mv => rw [hfetch] at hm'; exact hm'
          | none => rw [hfetch] at hm'; exact hm'
        rcases List.mem_append.mp hm'' with h | h
        · exact hall m' h
        · rcases List.mem_singleton.mp h with rfl
          simp only [validate_create, Bool.and_eq_true,
            decide_eq_true_eq] at hv
          obtain ⟨⟨⟨⟨⟨⟨⟨⟨h1, h2⟩, _⟩, h4⟩, h5⟩, h6⟩, h7⟩, h8⟩, _⟩ := hv
          exact ⟨h1, h2, h6, h4, h5, h7, h8⟩
    · unfold Routes.create_movie at hm'
      rw [if_neg hv] at hm'
      have := hall m' hm'
      exact this
  · intro i u m' hm'
    by_cases hv : validate_update today u = true
    · unfold Routes.update_movie at hm'
      rw [if_pos hv] at hm'
      cases hex : Crud.get_movie_by_id db i with
      | none =>
        rw [hex] at hm'
        obtain ⟨_, _, _, h4, h5, h6, h7⟩ := hall m' hm'
        exact ⟨h4, h5, h6, h7⟩
      | some m =>
        rw [hex] at hm'
        simp only [Crud.update_movie] at hm'
        rcases List.mem_map.mp hm' with ⟨x, hx, rfl⟩
        simp only [validate_update, Bool.and_eq_true] at hv
        obtain ⟨⟨⟨hsc, hbu⟩, hre⟩, _⟩ := hv
        obtain ⟨_, _, _, hx4, hx5, hx6, hx7⟩ := hall x hx
        by_cases hcase : (x.id == m.id) = true
        · rw [if_pos hcase]
          refine ⟨?_, ?_, ?_, ?_⟩
          · show 0 ≤ u.score.getD x.score
            cases hu : u.score with
            | none => exact hx4
            | some s =>
              rw [hu] at hsc
              simp only [Option.all_some, Bool.and_eq_true,
                decide_eq_true_eq] at hsc
              exact hsc.1
          · show u.score.getD x.score ≤ 100
            cases hu : u.score with
            | none => exact hx5
            | some s =>
              rw [hu] at hsc
              simp only [Option.all_some, Bool.and_eq_true,
                decide_eq_true_eq] at hsc
              exact hsc.2
          · show 0 ≤ u.budget.getD x.budget
            cases hu : u.budget with
            | none => exact hx6
            | some b =>
              rw [hu] at hbu
              simp only [Option.all_some, decide_eq_true_eq] at hbu
              exact hbu
          · show 0 ≤ u.revenue.getD x.revenue
            cases hu : u.revenue with
            | none => exact hx7
            | some v =>
              rw [hu] at hre
              simp only [Option.all_some, decide_eq_true_eq] at hre
              exact hre
        · rw [if_neg hcase]
          exact ⟨hx4, hx5, hx6, hx7⟩
    · unfold Routes.update_movie at hm'
      rw [if_neg hv] at hm'
      obtain ⟨_, _, _, h4, h5, h6, h7⟩ := hall m' hm'
      exact ⟨h4, h5, h6, h7⟩

/-- Witness for the amended theorem of C8: the invariants hold after a concrete
create and after a concrete update on `seed_db`. -/
theorem movie_invariants_amended_witness :
    (∀ (p : MovieCreateSchema) m',
      m' ∈ (Routes.create_movie 0 seed_db p).2.movies → MovieInv m')
    ∧ (∀ (i : Nat) (u : MovieUpdateSchema) m',
      m' ∈ (Routes.update_movie 0 seed_db i u).2.movies → MovieNumInv m') :=
  movie_invariants_amended 0 seed_db (by decide)

/-- C9 counterexample: US and USA designate the same country, yet after the
two creates the store holds two distinct country rows, one per spelling, and
the two movies reference different rows — the code never normalizes the ISO
code. -/
theorem country_not_normalized_cex :
    Schemas.same_country "US" "USA" = true
    ∧ ((Routes.create_movie 0
        (Routes.create_movie 0 DB.empty c9_payload_us).2
          c9_payload_usa).2.countries.map (·.code)) = ["US", "USA"]
    ∧ ((Routes.create_movie 0
        (Routes.create_movie 0 DB.empty c9_payload_us).2
          c9_payload_usa).2.movies.map (·.country_id)) = [1, 2] :=
  ⟨rfl, rfl, rfl⟩

/-- C9 amended: country identity is the exact validated code string, not a
normalized country.  Two creates carrying the identical code string resolve
to one single country row (exactly one row with that code exists afterwards
and both movies reference it); a 2-letter and a 3-letter spelling of the
same country resolve to distinct rows. -/
theorem country_identity_exact_code (today : Int) (db : DB)
    (p1 p2 : MovieCreateSchema) (hwf : WF db)
    (hsame : p2.country = p1.country)
    (hv1 : validate_create today p1 = true)
    (hv2 : validate_create today p2 = true)
    (hnew1 : Crud.get_movie_by_name_and_date db p1.name p1.date = none)
    (hnew2 : Crud.get_movie_by_name_and_date
      (Routes.create_movie today db p1).2 p2.name p2.date = none) :
    ∃ m1 m2 c,
      (Routes.create_movie today db p1).1 = Except.ok m1
      ∧ (Routes.create_movie today
          (Routes.create_movie today db p1).2 p2).1 = Except.ok m2
      ∧ c ∈ (Routes.create_movie today
          (Routes.create_movie today db p1).2 p2).2.countries
      ∧ c.code = p1.country
      ∧ ((Routes.create_movie today
          (Routes.create_movie today db p1).2 p2).2.countries.map
            (·.code)).count p1.country = 1
      ∧ m1.country_id = c.id ∧ m2.country_id = c.id
      ∧ (∀ rows ctr (r : CountryModel), r ∈ rows → r.code = p1.country →
          (rows.map (·.code)).Nodup →
          Crud.get_or_create_country rows ctr p1.country = (r, rows, ctr))
      ∧ (∀ rows ctr, (∀ r : CountryModel, r ∈ rows → r.code ≠ p1.country) →
          Crud.get_or_create_country rows ctr p1.country =
            ({ id := ctr, code := p1.country, name := none },
              rows ++ [{ id := ctr, code := p1.country, name := none }],
              ctr + 1)) := by
  have hdb1 := routes_create_ok today db p1 hwf hv1 hnew1
  have hnew2' : Crud.get_movie_by_name_and_date (create_movie_db db p1)
      p2.name p2.date = none := by
    rw [hdb1] at hnew2
    exact hnew2
  have hwf1 : WF (create_movie_db db p1) := wf_create_movie_db db p1 hwf
  have hdb2 := routes_create_ok today (create_movie_db db p1) p2 hwf1 hv2
    hnew2'
  have hwf2 : WF (create_movie_db (create_movie_db db p1) p2) :=
    wf_create_movie_db (create_movie_db db p1) p2 hwf1
  rw [hdb1]
  dsimp only
  rw [hdb2]
  dsimp only
  have hc1code : (get_or_create_country db.countries db.next_country_id
      p1.country).1.code = p1.country :=
    get_or_create_country_code db.countries db.next_country_id p1.country
  have hc1db1 : (get_or_create_country db.countries db.next_country_id
      p1.country).1 ∈ (create_movie_db db p1).countries :=
    get_or_create_country_mem db.countries db.next_country_id p1.country
  have hc1db2 : (get_or_create_country db.countries db.next_country_id
      p1.country).1 ∈
      (create_movie_db (create_movie_db db p1) p2).countries :=
    get_or_create_country_sub (create_movie_db db p1).countries
      (create_movie_db db p1).next_country_id p2.country hc1db1
  have hc2code : (get_or_create_country (create_movie_db db p1).countries
      (create_movie_db db p1).next_country_id p2.country).1.code =
        p2.country :=
    get_or_create_country_code (create_movie_db db p1).countries
      (create_movie_db db p1).next_country_id p2.country
  have hc2db2 : (get_or_create_country (create_movie_db db p1).countries
      (create_movie_db db p1).next_country_id p2.country).1 ∈
      (create_movie_db (create_movie_db db p1) p2).countries :=
    get_or_create_country_mem (create_movie_db db p1).countries
      (create_movie_db db p1).next_country_id p2.country
  have hnodup2 : ((create_movie_db (create_movie_db db p1) p2).countries.map
      (·.code)).Nodup := hwf2.2.1.2.1
  have hc12 : (get_or_create_country db.countries db.next_country_id
      p1.country).1 =
      (get_or_create_country (create_movie_db db p1).countries
        (create_movie_db db p1).next_country_id p2.country).1 :=
    List.inj_on_of_nodup_map hnodup2 hc1db2 hc2db2
      (hc1code.trans (hc2code.trans hsame).symm)
  refine ⟨create_movie_row db p1,
    create_movie_row (create_movie_db db p1) p2,
    (get_or_create_country db.countries db.next_country_id p1.country).1,
    rfl, rfl, hc1db2, hc1code, ?_, rfl, ?_, ?_, ?_⟩
  · have h0 := count_key_eq_one (·.code) hnodup2 hc1db2
    dsimp only at h0
    rwa [hc1code] at h0
  · show (get_or_create_country (create_movie_db db p1).countries
      (create_movie_db db p1).next_country_id p2.country).1.id = _
    rw [← hc12]
  · intro rows ctr r hr hcode hn
    exact get_or_create_country_found hr hcode hn
  · intro rows ctr h
    exact get_or_create_country_absent h

/-- Witness for the amended theorem of C9: two concrete creates both coded FR. -/
theorem country_identity_exact_code_witness :
    ∃ m1 m2 c,
      (Routes.create_movie 0 DB.empty seed_payload).1 = Except.ok m1
      ∧ (Routes.create_movie 0
          (Routes.create_movie 0 DB.empty seed_payload).2 c9_payload_fr).1 =
            Except.ok m2
      ∧ c ∈ (Routes.create_movie 0
          (Routes.create_movie 0 DB.empty seed_payload).2
            c9_payload_fr).2.countries
      ∧ c.code = seed_payload.country
      ∧ ((Routes.create_movie 0
          (Routes.create_movie 0 DB.empty seed_payload).2
            c9_payload_fr).2.countries.map
              (·.code)).count seed_payload.country = 1
      ∧ m1.country_id = c.id ∧ m2.country_id = c.id
      ∧ (∀ rows ctr (r : CountryModel), r ∈ rows →
          r.code = seed_payload.country → (rows.map (·.code)).Nodup →
          Crud.get_or_create_country rows ctr seed_payload.country =
            (r, rows, ctr))
      ∧ (∀ rows ctr,
          (∀ r : CountryModel, r ∈ rows → r.code ≠ seed_payload.country) →
          Crud.get_or_create_country rows ctr seed_payload.country =
            ({ id := ctr, code := seed_payload.country, name := none },
              rows ++
                [{ id := ctr, code := seed_payload.country, name := none }],
              ctr + 1)) :=
  country_identity_exact_code 0 DB.empty seed_payload c9_payload_fr
    (by decide) rfl (by decide) (by decide) rfl (by decide)

end Claims

end MovieApp
